import Mathlib

/-
Shallow embedding of the Wyman Cove weather collector (collector.py).

Modelling conventions:
- Python floats are modelled as exact rationals (ℚ); the two places where the
  code applies transcendental operations (math.atan in the wet-bulb formula and
  the ** 1.5 exponent in the wind worry score) are modelled over ℝ.
- Python `round(x, n)` uses round-half-to-even; `pyRound` models it on ℚ and
  `pyRoundR` on ℝ.
- A value that may be absent from a JSON dict is an `Option`; a dict key that
  may itself be missing while its value may be null is an `Option (Option _)`.
- Python string comparison is lexicographic on code points; `strLt`/`strLe`
  model it (Lean's built-in String order does not reduce in the kernel).
- Real-time inputs (datetime.now, the slice-index search over parsed hourly
  timestamps, the local hour) are parameters of the embedding, collected in
  `Clock`: they are environment readings, not computations of the core.
-/

namespace Myweather

/-- Round-half-to-even to an integer, as Python round does on exact values. -/
def pyRound (q : ℚ) : ℤ :=
  let f := ⌊q⌋
  let r := q - f
  if r < 1/2 then f
  else if 1/2 < r then f + 1
  else if f % 2 = 0 then f else f + 1

/-- Python round(x, 1). -/
def round1 (q : ℚ) : ℚ := (pyRound (10 * q) : ℚ) / 10

/-- Python round(x, 2). -/
def round2q (q : ℚ) : ℚ := (pyRound (100 * q) : ℚ) / 100

/-- Python round(x, 0): nearest even on ties, result still a float. -/
def round0 (q : ℚ) : ℚ := (pyRound q : ℚ)

/-- Python int(): truncation toward zero. -/
def pyInt (q : ℚ) : ℤ := q.num.tdiv (q.den : ℤ)

/-- Python l[-n:]: the most recent n entries, oldest dropped first. -/
def takeLast {α : Type} (n : ℕ) (l : List α) : List α := l.drop (l.length - n)

/-- Code-point comparison of characters, as Python compares strings. -/
def charLt (a b : Char) : Bool := a.toNat < b.toNat

/-- Lexicographic order on character lists. -/
def listCharLt : List Char → List Char → Bool
  | [], [] => false
  | [], _ :: _ => true
  | _ :: _, [] => false
  | a :: as, b :: bs => if charLt a b then true else if charLt b a then false else listCharLt as bs

/-- Python string strict order (lexicographic on code points). -/
def strLt (a b : String) : Bool := listCharLt a.data b.data

/-- Python string non-strict order. -/
def strLe (a b : String) : Bool := !(strLt b a)

/-- Insert into an ascending list, keeping it ascending. -/
def insertSorted (d : String) : List String → List String
  | [] => [d]
  | x :: xs => if strLe d x then d :: x :: xs else x :: insertSorted d xs

/-- Python sorted() on a list of strings (ascending, code-point order). -/
def sortDates (l : List String) : List String := l.foldr insertSorted []

/-
Wind Exposure Model — collector.py lines 47-58.
Each tuple: (min_bearing_inclusive, max_bearing_exclusive, exposure_factor).
-/

/-- Site exposure table by compass sector, copied from WIND_EXPOSURE_TABLE;
the decimal factors 1.00, 0.90, ... are written as exact rationals over 100. -/
def WIND_EXPOSURE_TABLE : List (ℕ × ℕ × ℚ) :=
  [(0, 20, 1),
   (20, 60, mkRat 90 100),
   (60, 90, mkRat 70 100),
   (90, 130, mkRat 50 100),
   (130, 165, mkRat 20 100),
   (165, 200, mkRat 10 100),
   (200, 255, mkRat 5 100),
   (255, 285, mkRat 30 100),
   (285, 315, mkRat 70 100),
   (315, 360, mkRat 95 100)]

/-- Predicate of get_exposure_factor: does degree d fall in sector e
(with the wrap-around case for min_d greater than max_d). -/
def sectorMatches (d : ℕ) (e : ℕ × ℕ × ℚ) : Bool :=
  if e.1 ≤ e.2.1 then decide (e.1 ≤ d) && decide (d < e.2.1)
  else decide (e.1 ≤ d) || decide (d < e.2.1)

/-- First matching sector factor, none when the loop falls through. -/
def lookupExposure (d : ℕ) : Option ℚ :=
  WIND_EXPOSURE_TABLE.findSome? (fun e => if sectorMatches d e then some e.2.2 else none)

/-- get_exposure_factor (collector.py lines 1115-1125): int(deg) % 360, scan the
table in order, return the first matching factor, 0.5 when nothing matches. -/
def get_exposure_factor (deg : ℤ) : ℚ :=
  (lookupExposure (deg.emod 360).toNat).getD (mkRat 50 100)

/-
ASOS station observations — fetch_asos_obs, collector.py lines 402-475.
-/

/-- One parsed ASOS observation, with unit conversions already applied
(the fields of the obs dict built at lines 435-443). -/
structure AsosObs where
  station : String
  time : String
  pressure_hpa : Option ℚ
  temp_f : Option ℚ
  dewpoint_f : Option ℚ
  wind_mph : Option ℚ
  wind_dir : Option ℚ
deriving DecidableEq, Repr

/-- An observation dict as it sits in the history cache file or is returned:
the tendency keys may be absent (outer none) or present with a null value. -/
structure HistEntry where
  obs : AsosObs
  tendency_hpa : Option (Option ℚ)
  tendency_label : Option (Option String)
deriving DecidableEq, Repr

/-- Pressure band labels shared by fetch_asos_obs (lines 455-459) and the
model 3h trend (lines 941-950): identical thresholds, extremes checked first. -/
def pressureBandLabel (t : ℚ) : String :=
  if 3 ≤ t then "Rising fast"
  else if 6/10 ≤ t then "Rising"
  else if t ≤ -3 then "Falling fast"
  else if t ≤ -(6/10) then "Falling"
  else "Steady"

/-- First non-null pressure in the window (the next(...) generator, line 451). -/
def firstWindowPressure (history : List HistEntry) : Option ℚ :=
  history.findSome? (fun h => h.obs.pressure_hpa)

/-- Append the fresh obs (tendency keys not yet attached) and truncate to the
most recent 6 entries (lines 445-446). -/
def asosWindow (history : List HistEntry) (obs : AsosObs) : List HistEntry :=
  takeLast 6 (history ++ [⟨obs, none, none⟩])

/-- Tendency computation over the truncated window (lines 449-459): needs the
first non-null pressure, a non-null newest pressure and at least 2 entries. -/
def asosTendency (window : List HistEntry) (newestP : Option ℚ) : Option ℚ × Option String :=
  match firstWindowPressure window, newestP with
  | some fp, some np =>
    if 2 ≤ window.length then
      let t := round1 (np - fp)
      (some t, some (pressureBandLabel t))
    else (none, none)
  | _, _ => (none, none)

/-- The rolling-history update contract: updated window plus tendency pair. -/
def asosUpdate (history : List HistEntry) (obs : AsosObs) :
    List HistEntry × Option ℚ × Option String :=
  let w := asosWindow history obs
  (w, asosTendency w obs.pressure_hpa)

/-- An observation as returned to the caller; the stale key is present only on
the cached-fallback path. -/
structure AsosRet where
  entry : HistEntry
  stale : Option Bool
deriving DecidableEq, Repr

/-- One run of fetch_asos_obs against the cache file. `outcome` is the parsed
observation when the HTTP fetch and parse succeed, none on any failure (every
failure in the code happens before the append at line 445). On success the
cache file is written at line 447, before the tendency keys are attached to
the in-memory obs at lines 461-462, so the persisted entries never carry them.
On failure the last file entry is returned with stale set (lines 471-474),
or an empty dict (modelled as none) when the file is empty. -/
def fetch_asos_obs (file : List HistEntry) (outcome : Option AsosObs) :
    Option AsosRet × List HistEntry :=
  match outcome with
  | some obs =>
    let window := asosWindow file obs
    let td := asosTendency window obs.pressure_hpa
    (some ⟨⟨obs, some td.1, some td.2⟩, none⟩, window)
  | none =>
    match file.getLast? with
    | some last => (some ⟨last, some true⟩, file)
    | none => (none, file)

/-- Iterated runs of fetch_asos_obs, threading the cache file. -/
def runAsos (file : List HistEntry) (outcomes : List (Option AsosObs)) : List HistEntry :=
  outcomes.foldl (fun f oc => (fetch_asos_obs f oc).2) file

/-- What process_data reads from a station block: .get("tendency_hpa") on the
possibly-empty dict (lines 1075). -/
def getTendencyHpa (r : Option AsosRet) : Option ℚ :=
  match r with
  | none => none
  | some r => r.entry.tendency_hpa.getD none

/-
Frost/freeze season log — update_frost_log, collector.py lines 572-658.
-/

/-- Persistent frost log state (the JSON object in frost_log.json). -/
structure FrostLog where
  season_start : String
  freeze_days : ℕ
  hard_freeze_days : ℕ
  severe_days : ℕ
  last_freeze : Option String
  last_hard : Option String
  last_severe : Option String
  logged_dates : List String
  upcoming_freeze_days : List (String × ℚ)
deriving DecidableEq, Repr

/-- Season start (line 595): Oct 1 of the current year when today has reached
it, else Oct 1 of the previous year. `year` and `today` both come from the
same datetime.now reading. -/
def seasonStartFor (year : ℤ) (today : String) : String :=
  if strLe (s!"{year}-10-01") today then s!"{year}-10-01" else s!"{year - 1}-10-01"

/-- The freshly-reset season record (lines 599-608). -/
def freshLog (ss : String) : FrostLog :=
  ⟨ss, 0, 0, 0, none, none, none, [], []⟩

/-- Load-or-reset step (lines 580-608): keep the stored log only when its
season_start equals the computed one. -/
def seasonInit (year : ℤ) (today : String) (stored : Option FrostLog) : FrostLog :=
  let ss := seasonStartFor year today
  match stored with
  | some log => if log.season_start = ss then log else freshLog ss
  | none => freshLog ss

/-- Set-style add used for logged.add(d). -/
def addLogged (l : List String) (d : String) : List String :=
  if d ∈ l then l else d :: l

/-- One iteration of the daily fold (lines 614-638): skip non-past dates,
pre-season dates and already-logged dates; classify a non-null minimum into
the severe/hard/freeze bands; a visited non-null minimum is always added to
the logged set, even when above every threshold. -/
def frostStep (today ss : String) (acc : FrostLog × List String) (dm : String × Option ℚ) :
    FrostLog × List String :=
  let log := acc.1
  let logged := acc.2
  let d := dm.1
  if strLe today d then acc
  else if strLt d ss then acc
  else if d ∈ logged then acc
  else
    match dm.2 with
    | none => acc
    | some t =>
      if t ≤ 20 then
        ({log with severe_days := log.severe_days + 1,
                   hard_freeze_days := log.hard_freeze_days + 1,
                   freeze_days := log.freeze_days + 1,
                   last_severe := some d, last_hard := some d, last_freeze := some d},
         addLogged logged d)
      else if t ≤ 28 then
        ({log with hard_freeze_days := log.hard_freeze_days + 1,
                   freeze_days := log.freeze_days + 1,
                   last_hard := some d, last_freeze := some d},
         addLogged logged d)
      else if t ≤ 32 then
        ({log with freeze_days := log.freeze_days + 1, last_freeze := some d},
         addLogged logged d)
      else (log, addLogged logged d)

/-- Upcoming forecast freeze days (lines 644-648): every date at or after
today whose non-null minimum is at most 32, with the minimum rounded. -/
def upcomingFreeze (today : String) (pairs : List (String × Option ℚ)) : List (String × ℚ) :=
  pairs.filterMap (fun dm =>
    if strLt dm.1 today then none
    else
      match dm.2 with
      | some t => if t ≤ 32 then some (dm.1, round1 t) else none
      | none => none)

/-- One full update_frost_log run on the stored state and the daily forecast
series: season init, daily fold over zip(dates, mins), retention of the 60
most recent logged dates (sorted ascending, line 640), upcoming-risk list. -/
def update_frost_log (year : ℤ) (today : String) (stored : Option FrostLog)
    (dates : List String) (mins : List (Option ℚ)) : FrostLog :=
  let ss := seasonStartFor year today
  let log0 := seasonInit year today stored
  let folded := (dates.zip mins).foldl (frostStep today ss) (log0, log0.logged_dates.dedup)
  let log1 := {folded.1 with logged_dates := takeLast 60 (sortDates folded.2)}
  {log1 with upcoming_freeze_days := upcomingFreeze today (dates.zip mins)}

/-
PWS last-known-good cache — fetch_pws_current, collector.py lines 269-325.
-/

/-- The single cached PWS reading (last_pws.json). -/
structure PwsData where
  station : String
  name : String
  updated : Option String
  temperature : Option ℚ
  stale : Bool
deriving DecidableEq, Repr

/-- Per-source status record (the meta dicts of the fetchers). -/
structure FetchMeta where
  status : String
  error : Option String
deriving DecidableEq, Repr

/-- Station id constant. -/
def PWS_STATION : String := "KMAMARBL63"

/-- The no-cache placeholder returned at line 325. -/
def pwsPlaceholder : PwsData :=
  ⟨PWS_STATION, "Castle Hill", none, none, true⟩

/-- The except-branch of fetch_pws_current (lines 314-325): a usable cached
value (non-null temperature) is returned as a stale copy, otherwise the
placeholder; the cache file is not touched. -/
def pwsFailure (cache : Option PwsData) (msg : String) :
    PwsData × FetchMeta × Option PwsData :=
  match cache with
  | some last =>
    if last.temperature.isSome then
      ({last with stale := true}, ⟨"error", some msg⟩, cache)
    else (pwsPlaceholder, ⟨"error", some msg⟩, cache)
  | none => (pwsPlaceholder, ⟨"error", some msg⟩, cache)

/-- fetch_pws_current as a function of the pre-loaded cache and the scrape
outcome: Except.error is a network/HTTP failure, Except.ok none is a page
without a parseable temperature (which the code converts into a failure at
line 305), Except.ok (some t) is a successful scrape. Returns the value, the
meta and the cache file content after the run. -/
def fetch_pws_current (cache : Option PwsData) (nowLocal : String)
    (outcome : Except String (Option ℚ)) : PwsData × FetchMeta × Option PwsData :=
  match outcome with
  | Except.error e => pwsFailure cache e
  | Except.ok none =>
    pwsFailure cache "Could not parse PWS temperature (WU DOM likely changed)."
  | Except.ok (some t) =>
    let pws : PwsData := ⟨PWS_STATION, "Castle Hill", some nowLocal, some t, false⟩
    (pws, ⟨"ok", none⟩, some pws)

/-
Pressure alarm — process_data, collector.py lines 1071-1098.
-/

/-- Source arbitration (lines 1079-1085): KBOS observed tendency, then buoy
tendency, then model 3h trend; the first non-null wins. -/
def bestPressureTend (kbosT buoyT modelT : Option ℚ) : Option (ℚ × String) :=
  match kbosT with
  | some v => some (v, "KBOS")
  | none =>
    match buoyT with
    | some v => some (v, "Buoy")
    | none =>
      match modelT with
      | some v => some (v, "model")
      | none => none

/-- Format of the +x.y value inside the alarm labels (the +.1f directive). -/
def signedTenth (q : ℚ) : String :=
  let n := pyRound (10 * q)
  let a := n.natAbs
  (if n < 0 then "-" else "+") ++ toString (a / 10) ++ "." ++ toString (a % 10)

/-- The four derived keys written by the alarm block when a tendency exists. -/
structure PressureAlarm where
  best_pressure_tend : ℚ
  best_pressure_tend_src : String
  pressure_alarm : Option String
  pressure_alarm_label : Option String
deriving DecidableEq, Repr

/-- The alarm block (lines 1087-1098): when a tendency was selected, record
the rounded value and source, then fire falling at -3.0 or below and rising
at +3.0 or above, else record an explicit null alarm. -/
def pressureAlarmBlock (kbosT buoyT modelT : Option ℚ) : Option PressureAlarm :=
  match bestPressureTend kbosT buoyT modelT with
  | none => none
  | some td =>
    let t := td.1
    let src := td.2
    if t ≤ -3 then
      some ⟨round1 t, src, some "falling",
        some ("⚠️ Pressure falling fast (" ++ signedTenth t ++ " hPa, " ++ src ++ ")")⟩
    else if 3 ≤ t then
      some ⟨round1 t, src, some "rising",
        some ("📈 Pressure rising fast (" ++ signedTenth t ++ " hPa, " ++ src ++ ")")⟩
    else some ⟨round1 t, src, none, none⟩

/-
Fog probability — process_data, collector.py lines 954-978.
-/

/-- Is hourly slot (t, d, h, w) foggy (lines 958-964): missing values default
to 999 / -999 / 0 / 999, then dewpoint depression at most 2, humidity at
least 93 and wind at most 10. -/
def fogSlotFoggy (t d h w : Option ℚ) : Bool :=
  let tv := t.getD 999
  let dv := d.getD (-999)
  let hv := h.getD 0
  let wv := w.getD 999
  decide (tv - dv ≤ 2) && decide (93 ≤ hv) && decide (wv ≤ 10)

/-- Fog window (line 957): min(12, len(temp), len(dew), len(rh), len(ws)). -/
def fogWindowSize (temp dew rh ws : List (Option ℚ)) : ℕ :=
  min 12 (min temp.length (min dew.length (min rh.length ws.length)))

/-- Count of foggy slots among the first n (lines 956-964). The Python loop
indexes each array at i in range(n); since n never exceeds any of the four
lengths, this equals filtering the zipped prefix of length n. -/
def fogHoursCount (temp dew rh ws : List (Option ℚ)) (n : ℕ) : ℕ :=
  ((((temp.zip dew).zip (rh.zip ws)).take n).filter
    (fun p => fogSlotFoggy p.1.1 p.1.2 p.2.1 p.2.2)).length

/-- Fog label bands (lines 968-975). -/
def fogLabelFor (pct : ℤ) : String :=
  if 75 ≤ pct then "Likely"
  else if 40 ≤ pct then "Possible"
  else if 15 ≤ pct then "Low chance"
  else "Unlikely"

/-- The fog derived keys (lines 966-978): only produced for a non-empty
window; percentage is the rounded foggy share of the window. -/
def fogDerived (temp dew rh ws : List (Option ℚ)) : Option (ℤ × String × ℕ) :=
  let n := fogWindowSize temp dew rh ws
  if n = 0 then none
  else
    let fh := fogHoursCount temp dew rh ws n
    let pct := pyRound ((fh : ℚ) / (n : ℚ) * 100)
    some (pct, fogLabelFor pct, fh)

/-
Wind risk model — process_data, collector.py lines 1115-1212.
-/

/-- The _safe_num helper (lines 1146-1150): float(x) with failures mapped to
None; on already-numeric-or-null input it is the identity. -/
def safe_num (x : Option ℚ) : Option ℚ := x

/-- The loop state of find_peak: running best value (initialised to -1.0) and,
once a slot has beaten it, that slot's direction and index. -/
def find_peakAux (values dirs : List (Option ℚ)) (n : ℕ) : ℚ × Option (ℚ × ℕ) :=
  (List.range n).foldl
    (fun acc i =>
      match safe_num (values.getD i none), safe_num (dirs.getD i none) with
      | some v, some d => if acc.1 < v then (v, some (d, i)) else acc
      | _, _ => acc)
    (-1, none)

/-- find_peak (lines 1152-1165): maximum value over the first n slots,
skipping slots with a null value or direction, paired with the simultaneous
direction and the slot timestamp. -/
def find_peak (values dirs : List (Option ℚ)) (times : List String) (n : ℕ) :
    Option ℚ × Option ℚ × Option String :=
  match find_peakAux values dirs n with
  | (_, none) => (none, none, none)
  | (bv, some bd) => (some bv, some bd.1, times.get? bd.2)

/-- Worry thresholds (lines 63-66). -/
def WORRY_NOTICEABLE : ℝ := 5

/-- Worry threshold for outdoor furniture and loose items. -/
def WORRY_NOTABLE : ℝ := 12

/-- Worry threshold for structural concern. -/
def WORRY_SIGNIFICANT : ℝ := 20

/-- Worry threshold for an exceptional event. -/
def WORRY_SEVERE : ℝ := 30

/-- Round-half-to-even over ℝ, the Python round on exact real values. -/
noncomputable def pyRoundR (x : ℝ) : ℤ :=
  if x - ⌊x⌋ < 1/2 then ⌊x⌋
  else if 1/2 < x - ⌊x⌋ then ⌊x⌋ + 1
  else if ⌊x⌋ % 2 = 0 then ⌊x⌋ else ⌊x⌋ + 1

/-- Python round(x, 1) over ℝ. -/
noncomputable def round1R (x : ℝ) : ℝ := (pyRoundR (10 * x) : ℝ) / 10

/-- Python round(x, 2) over ℝ. -/
noncomputable def round2R (x : ℝ) : ℝ := (pyRoundR (100 * x) : ℝ) / 100

/-- worry_score (lines 1127-1128): round(speed * exposure_factor ** 1.5, 2). -/
noncomputable def worry_score (speed ef : ℚ) : ℝ :=
  round2R ((speed : ℝ) * (ef : ℝ) ^ (1.5 : ℝ))

/-- worry_level (lines 1130-1135): severity band of a worry score. -/
noncomputable def worry_level (score : ℝ) : String :=
  if WORRY_SEVERE ≤ score then "SEVERE"
  else if WORRY_SIGNIFICANT ≤ score then "SIGNIFICANT"
  else if WORRY_NOTABLE ≤ score then "NOTABLE"
  else if WORRY_NOTICEABLE ≤ score then "NOTICEABLE"
  else "LOW"

/-- One wind_risk sub-object (lines 1186-1193 and 1202-1209). -/
structure WindSub where
  peak_mph : ℚ
  direction_deg : ℤ
  exposure_factor : ℚ
  worry_score : ℝ
  level : String
  peak_time : Option String

/-- Build a sub-object from a peak value, its direction and its time:
direction reduced mod 360, exposure factor looked up, worry scored and
banded (lines 1182-1193). -/
noncomputable def mkWindSub (v d : ℚ) (t : Option String) : WindSub :=
  let gd : ℤ := (pyInt d).emod 360
  let ef := get_exposure_factor gd
  let ws := worry_score v ef
  ⟨round1 v, gd, round2q ef, ws, worry_level ws, t⟩

/-- The wind risk computation (lines 1137-1209): a shared lookahead of
min(12, len(gusts), len(dirs)), one find_peak per stream, fallback to the
current-conditions snapshot when a stream found no peak, and a sub-object
whenever value and direction are both present. Returns (gust, sustained). -/
noncomputable def windRiskOf (gusts speeds dirs : List (Option ℚ)) (times : List String)
    (curGust curSpeed curDir : Option ℚ) : Option WindSub × Option WindSub :=
  let lookahead := min 12 (min gusts.length dirs.length)
  let g := find_peak gusts dirs times lookahead
  let s := find_peak speeds dirs times lookahead
  let gTriple : Option ℚ × Option ℚ × Option String :=
    match g.1 with
    | none => (safe_num curGust, safe_num curDir, none)
    | some v => (some v, g.2.1, g.2.2)
  let sTriple : Option ℚ × Option ℚ × Option String :=
    match s.1 with
    | none => (safe_num curSpeed, safe_num curDir, none)
    | some v => (some v, s.2.1, s.2.2)
  let mk : Option ℚ × Option ℚ × Option String → Option WindSub := fun triple =>
    match triple.1, triple.2.1 with
    | some v, some d => some (mkWindSub v d triple.2.2)
    | _, _ => none
  (mk gTriple, mk sTriple)

/-
Wet bulb, precipitation type, 850 hPa column, trough, sea breeze —
process_data, collector.py lines 855-1069.
-/

/-- Stull 2011 wet-bulb approximation (lines 857-869): Fahrenheit in and out,
rounded to one decimal, undefined when either input is null. -/
noncomputable def wet_bulb (t_f rh_pct : Option ℚ) : Option ℝ :=
  match t_f, rh_pct with
  | some tf, some rh =>
    let t : ℝ := ((tf : ℝ) - 32) * 5 / 9
    let r : ℝ := (rh : ℝ)
    let tw := t * Real.arctan (0.151977 * (r + 8.313659) ^ (0.5 : ℝ))
      + Real.arctan (t + r) - Real.arctan (r - 1.676331)
      + 0.00391838 * r ^ (1.5 : ℝ) * Real.arctan (0.023101 * r) - 4.686035
    some (round1R (tw * 9 / 5 + 32))
  | _, _ => none

/-- Precipitation type from wet bulb (lines 887-899). -/
noncomputable def precip_type_label (wb : Option ℝ) : Option String :=
  match wb with
  | none => none
  | some wb =>
    some (if wb ≤ 28 then "Snow"
      else if wb ≤ 32 then "Snow likely"
      else if wb ≤ 35 then "Mixed/slush"
      else if wb ≤ 38 then "Freezing rain possible"
      else "Rain")

/-- Model pressure trend over the first 4 hourly samples (lines 938-952):
requires all of p[0..3] non-null; the label bands are shared with the
station tendency. Returns (label, rounded 3h delta). -/
def modelTrendOf (p : List (Option ℚ)) : Option (String × ℚ) :=
  if 4 ≤ p.length then
    match p.getD 0 none, p.getD 1 none, p.getD 2 none, p.getD 3 none with
    | some p0, some _, some _, some p3 =>
      let t := p3 - p0
      some (pressureBandLabel t, round1 t)
    | _, _, _, _ => none
  else none

/-- 850 hPa column classification (lines 986-1007): rain at 32 and above,
marginal band defers to the wet bulb, snow at 20 and above, else heavy snow.
Returns (label, confidence, rounded current 850 temp). -/
noncomputable def colOf (cur_t850 : Option ℚ) (cur_wb : Option ℝ) :
    Option (String × String × ℚ) :=
  match cur_t850 with
  | none => none
  | some ct =>
    let lc : String × String :=
      if 32 ≤ ct then ("Rain", "High")
      else if 28 ≤ ct then
        (match cur_wb with
         | some wb => if wb ≤ 32 then ("Snow likely", "Moderate") else ("Mixed", "Low")
         | none => ("Mixed", "Low"))
      else if 20 ≤ ct then ("Snow", "High")
      else ("Heavy snow", "High")
    some (lc.1, lc.2, round1 ct)

/-- Geopotential height tendency (lines 1011-1019): needs 7 consecutive
non-null samples; delta of sample 6 against sample 0, rounded to an integer
value; trough and ridge signals at -30 and +30. -/
def troughOf (z : List (Option ℚ)) : Option (ℚ × String) :=
  if 7 ≤ z.length then
    match z.getD 0 none, z.getD 1 none, z.getD 2 none, z.getD 3 none,
          z.getD 4 none, z.getD 5 none, z.getD 6 none with
    | some z0, some _, some _, some _, some _, some _, some z6 =>
      let zt := round0 (z6 - z0)
      some (zt, if zt ≤ -30 then "Approaching" else if 30 ≤ zt then "Ridging" else "Steady")
    | _, _, _, _, _, _, _ => none
  else none

/-- The sea-breeze derived keys (lines 1065-1069). -/
structure SeaBreezeOut where
  sea_breeze_label : String
  sea_breeze_conf : Option String
  land_sea_diff_f : ℚ
  land_temp_f : ℚ
  water_temp_f : ℚ
deriving DecidableEq, Repr

/-- Sea breeze / land breeze detector (lines 1024-1069): requires both land
and water temperatures; decision chain on the land-sea difference, the local
hour, wind speed and onshore direction. -/
def seaBreezeOf (pws_t buoy_wt cur_ws cur_wd : Option ℚ) (now_hr : ℤ) :
    Option SeaBreezeOut :=
  match pws_t, buoy_wt with
  | some lt, some wt =>
    let diff := lt - wt
    let is_daytime := decide (9 ≤ now_hr) && decide (now_hr ≤ 19)
    let is_nighttime := decide (21 ≤ now_hr) || decide (now_hr ≤ 5)
    let light_wind := cur_ws.any (fun w => decide (w < 12))
    let calm_wind := cur_ws.any (fun w => decide (w < 6))
    let onshore := cur_wd.any (fun d => decide (d ≤ 135) || decide (315 ≤ d))
    if decide (8 ≤ diff) && is_daytime && calm_wind then
      some ⟨"Sea breeze likely", some "High", round1 diff, lt, wt⟩
    else if decide (5 ≤ diff) && is_daytime && light_wind then
      some ⟨"Sea breeze possible", some "Moderate", round1 diff, lt, wt⟩
    else if decide (3 ≤ diff) && is_daytime && light_wind && onshore then
      some ⟨"Sea breeze developing", some "Low", round1 diff, lt, wt⟩
    else if decide (diff ≤ -5) && is_nighttime && calm_wind then
      some ⟨"Land breeze", some "Moderate", round1 diff, lt, wt⟩
    else some ⟨"No sea breeze", none, round1 diff, lt, wt⟩
  | _, _ => none

/-
Document assembly — process_data, collector.py lines 756-1217.
-/

/-- Weather code to text (lines 115-126). -/
def get_weather_description (code : ℤ) : String :=
  if code = 0 then "Clear" else if code = 1 then "Mostly Clear"
  else if code = 2 then "Partly Cloudy" else if code = 3 then "Overcast"
  else if code = 45 then "Fog" else if code = 48 then "Freezing Fog"
  else if code = 51 then "Light Drizzle" else if code = 53 then "Drizzle"
  else if code = 55 then "Heavy Drizzle"
  else if code = 61 then "Light Rain" else if code = 63 then "Rain"
  else if code = 65 then "Heavy Rain"
  else if code = 71 then "Light Snow" else if code = 73 then "Snow"
  else if code = 75 then "Heavy Snow" else if code = 77 then "Snow Grains"
  else if code = 80 then "Light Showers" else if code = 81 then "Showers"
  else if code = 82 then "Heavy Showers"
  else if code = 85 then "Light Snow Showers" else if code = 86 then "Snow Showers"
  else if code = 95 then "Thunderstorm" else if code = 96 then "Thunderstorm with Hail"
  else if code = 99 then "Severe Thunderstorm"
  else s!"Code {code}"

/-- Weather code to emoji (lines 129-140). -/
def get_weather_emoji (code : ℤ) : String :=
  if code = 0 then "☀️" else if code = 1 then "🌤️"
  else if code = 2 then "⛅" else if code = 3 then "☁️"
  else if code = 45 then "🌫️" else if code = 48 then "🌫️"
  else if code = 51 then "🌦️" else if code = 53 then "🌧️"
  else if code = 55 then "🌧️"
  else if code = 61 then "🌧️" else if code = 63 then "🌧️"
  else if code = 65 then "🌧️"
  else if code = 71 then "🌨️" else if code = 73 then "🌨️"
  else if code = 75 then "🌨️" else if code = 77 then "🌨️"
  else if code = 80 then "🌦️" else if code = 81 then "🌦️"
  else if code = 82 then "🌧️"
  else if code = 85 then "🌨️" else if code = 86 then "🌨️"
  else if code = 95 then "⛈️" else if code = 96 then "⛈️"
  else if code = 99 then "⛈️"
  else "🌡️"

/-- Config constants (lines 23-29). -/
def LAT : ℚ := 42.5014

/-- Longitude of the site. -/
def LON : ℚ := -70.8750

/-- Display name of the site. -/
def LOCATION_NAME : String := "Wyman Cove, Marblehead MA"

/-- Output schema version. -/
def SCHEMA_VERSION : String := "1.1"

/-- Environment readings of one run: the generated_at timestamp, the age
computation against it (compute_age_minutes applied to a source timestamp),
the index of the first hourly slot at or after now (lines 816-825, 0 when the
search fails), and the local hour used by the sea-breeze detector. -/
structure Clock where
  generated_at : String
  age_minutes_of : String → Option ℚ
  current_idx : ℕ
  now_hour : ℤ

/-- Location block. -/
structure Location where
  name : String
  lat : ℚ
  lon : ℚ
  updated : String
deriving DecidableEq, Repr

/-- One per-source status entry as assembled into the document. -/
structure SourceStatus where
  status : String
  updated_at : String
  error : Option String
  age_minutes : Option ℚ
deriving DecidableEq, Repr

/-- One NWS alert record. -/
structure Alert where
  event : String
  headline : String
  description : String
  severity : String
  onset : String
  expires : String
  url : String
deriving DecidableEq, Repr

/-- One tide high/low event. -/
structure TideEvent where
  date : String
  time : String
  height : ℚ
  type : String
deriving DecidableEq, Repr

/-- The 6-minute tide curve. -/
structure TideCurve where
  times : List String
  heights : List ℚ
deriving DecidableEq, Repr

/-- The value returned by fetch_tides. -/
structure TidesOut where
  events : List TideEvent
  curve : TideCurve
deriving DecidableEq, Repr

/-- One NWS text-forecast period. -/
structure NwsPeriod where
  name : String
  is_daytime : Bool
  temperature : Option ℤ
  temp_unit : String
  wind_speed : String
  wind_direction : String
  short_forecast : String
  detailed : String
  icon : String
deriving DecidableEq, Repr

/-- The buoy 44013 observation dict. -/
structure BuoyObs where
  time : String
  wind_dir : Option ℚ
  wind_mph : Option ℚ
  gust_mph : Option ℚ
  wave_ht_ft : Option ℚ
  wave_period_sec : Option ℚ
  pressure_hpa : Option ℚ
  air_temp_f : Option ℚ
  water_temp_f : Option ℚ
  dewpoint_f : Option ℚ
  pressure_tend_hpa : Option ℚ
  stale : Option Bool
deriving DecidableEq, Repr

/-- The current-conditions dict of the GFS payload; every field optional. -/
structure OMCurrent where
  time : Option String
  temperature_2m : Option ℚ
  relative_humidity_2m : Option ℚ
  apparent_temperature : Option ℚ
  precipitation : Option ℚ
  weather_code : Option ℤ
  cloud_cover : Option ℚ
  pressure_msl : Option ℚ
  wind_speed_10m : Option ℚ
  wind_direction_10m : Option ℚ
  wind_gusts_10m : Option ℚ
deriving DecidableEq, Repr

/-- The GFS current payload. -/
structure CurrentData where
  current : OMCurrent
deriving DecidableEq, Repr

/-- The hourly arrays of the HRRR (or GFS fallback) payload. -/
structure HourlyArrays where
  time : List String
  temperature_2m : List (Option ℚ)
  apparent_temperature : List (Option ℚ)
  relative_humidity_2m : List (Option ℚ)
  dew_point_2m : List (Option ℚ)
  precipitation_probability : List (Option ℚ)
  precipitation : List (Option ℚ)
  wind_speed_10m : List (Option ℚ)
  wind_gusts_10m : List (Option ℚ)
  wind_direction_10m : List (Option ℚ)
  pressure_msl : List (Option ℚ)
  cloud_cover : List (Option ℚ)
  visibility : List (Option ℚ)
  uv_index : List (Option ℚ)
  weather_code : List (Option ℚ)
  temperature_850hPa : List (Option ℚ)
  temperature_700hPa : List (Option ℚ)
  geopotential_height_850hPa : List (Option ℚ)
deriving DecidableEq, Repr

/-- All-empty hourly arrays (the .get(..., {}) default). -/
def emptyHourlyArrays : HourlyArrays :=
  ⟨[], [], [], [], [], [], [], [], [], [], [], [], [], [], [], [], [], []⟩

/-- The hourly payload. -/
structure HourlyData where
  hourly : HourlyArrays
deriving DecidableEq, Repr

/-- The daily arrays of the ECMWF (or GFS fallback) payload. -/
structure DailyArrays where
  time : List String
  weather_code : List (Option ℚ)
  temperature_2m_max : List (Option ℚ)
  temperature_2m_min : List (Option ℚ)
  apparent_temperature_max : List (Option ℚ)
  apparent_temperature_min : List (Option ℚ)
  sunrise : List String
  sunset : List String
  uv_index_max : List (Option ℚ)
  precipitation_sum : List (Option ℚ)
  precipitation_probability_max : List (Option ℚ)
  wind_speed_10m_max : List (Option ℚ)
  wind_gusts_10m_max : List (Option ℚ)
deriving DecidableEq, Repr

/-- All-empty daily arrays. -/
def emptyDailyArrays : DailyArrays :=
  ⟨[], [], [], [], [], [], [], [], [], [], [], [], []⟩

/-- The daily payload. -/
structure DailyData where
  daily : DailyArrays
deriving DecidableEq, Repr

/-- The normalized current block of the document (lines 794-808, 884, 901). -/
structure CurrentOut where
  time : String
  temperature : Option ℚ
  feels_like : Option ℚ
  humidity : Option ℚ
  pressure : Option ℚ
  wind_speed : Option ℚ
  wind_direction : Option ℚ
  wind_gusts : Option ℚ
  cloud_cover : Option ℚ
  precipitation : Option ℚ
  weather_code : ℤ
  condition : String
  emoji : String
  wet_bulb : Option ℝ
  precip_type : Option String

/-- The normalized hourly block of the document (lines 833-852, 877). -/
structure HourlyOut where
  times : List String
  temperature : List (Option ℚ)
  feels_like : List (Option ℚ)
  humidity : List (Option ℚ)
  dew_point : List (Option ℚ)
  precipitation_probability : List (Option ℚ)
  precipitation : List (Option ℚ)
  wind_speed : List (Option ℚ)
  wind_gusts : List (Option ℚ)
  wind_direction : List (Option ℚ)
  pressure : List (Option ℚ)
  cloud_cover : List (Option ℚ)
  visibility : List (Option ℚ)
  uv_index : List (Option ℚ)
  weather_code : List (Option ℚ)
  temp_850hpa : List (Option ℚ)
  temp_700hpa : List (Option ℚ)
  height_850hpa : List (Option ℚ)
  wet_bulb : List (Option ℝ)

/-- The normalized daily block of the document (lines 903-917). -/
structure DailyOut where
  dates : List String
  temperature_max : List (Option ℚ)
  temperature_min : List (Option ℚ)
  feels_like_max : List (Option ℚ)
  feels_like_min : List (Option ℚ)
  sunrise : List String
  sunset : List String
  precipitation_sum : List (Option ℚ)
  precipitation_probability_max : List (Option ℚ)
  wind_speed_max : List (Option ℚ)
  wind_gusts_max : List (Option ℚ)
  uv_index_max : List (Option ℚ)
  weather_code : List (Option ℚ)
deriving DecidableEq, Repr

/-- The hyperlocal bias block (lines 920-927). -/
structure Hyperlocal where
  bias_temp : ℚ
  corrected_temp : ℚ
deriving DecidableEq, Repr

/-- The derived dict, grouped by the code blocks that write keys together;
a group is none exactly when its block wrote nothing. -/
structure DerivedOut where
  pressure_trend : Option (String × ℚ)
  fog : Option (ℤ × String × ℕ)
  col : Option (String × String × ℚ)
  trough : Option (ℚ × String)
  sea_breeze : Option SeaBreezeOut
  pressure_alarm : Option PressureAlarm
  wind_peak_time : Option String

/-- The wind_risk block (lines 1180-1212). -/
structure WindRisk where
  window_hours : ℕ
  gust : Option WindSub
  sustained : Option WindSub

/-- The assembled document. A none in current / hourly / daily / kbos / kbvy
/ buoy_44013 / frost_log stands for the empty-dict (or empty-list) placeholder
the code stores there; a none in hyperlocal / derived / wind_risk means the
key is absent from the document. -/
structure WeatherDoc where
  schema_version : String
  generated_at : String
  location : Location
  sources : List (String × SourceStatus)
  alerts : List Alert
  current : Option CurrentOut
  hourly : Option HourlyOut
  daily : Option DailyOut
  tides : List TideEvent
  tide_curve : TideCurve
  kbos : Option AsosRet
  kbvy : Option AsosRet
  buoy_44013 : Option BuoyObs
  frost_log : Option FrostLog
  nws_forecast : List NwsPeriod
  pws : PwsData
  hyperlocal : Option Hyperlocal
  derived : Option DerivedOut
  wind_risk : Option WindRisk

/-- The default pws block substituted when the pws argument is None
(line 787; it carries no updated key). -/
def pwsDocDefault : PwsData := ⟨PWS_STATION, "Castle Hill", none, none, true⟩

set_option maxHeartbeats 2000000 in
/-- process_data (lines 756-1217): assemble the document. The base record
fills every always-present key (with empty placeholders for absent upstream
data); the current/hourly/daily normalization, the derived metrics and the
wind risk model run only when the current-conditions payload is truthy. -/
noncomputable def process_data (clock : Clock)
    (current_data : Option CurrentData) (hourly_data : Option HourlyData)
    (daily_data : Option DailyData) (pws : Option PwsData) (tides : Option TidesOut)
    (kbos kbvy : Option AsosRet) (buoy : Option BuoyObs)
    (nws_forecast : List NwsPeriod) (alerts : Option (List Alert))
    (source_meta : List (String × SourceStatus)) (frost_log : Option FrostLog) :
    WeatherDoc :=
  let sourcesAged := source_meta.map
    (fun km => (km.1, {km.2 with age_minutes := clock.age_minutes_of km.2.updated_at}))
  let pwsVal := pws.getD pwsDocDefault
  let base : WeatherDoc := {
    schema_version := SCHEMA_VERSION
    generated_at := clock.generated_at
    location := ⟨LOCATION_NAME, LAT, LON, clock.generated_at⟩
    sources := sourcesAged
    alerts := alerts.getD []
    current := none
    hourly := none
    daily := none
    tides := (tides.map (fun t => t.events)).getD []
    tide_curve := (tides.map (fun t => t.curve)).getD ⟨[], []⟩
    kbos := kbos
    kbvy := kbvy
    buoy_44013 := buoy
    frost_log := frost_log
    nws_forecast := nws_forecast
    pws := pwsVal
    hyperlocal := none
    derived := none
    wind_risk := none }
  match current_data with
  | none => base
  | some cd =>
    let cur := cd.current
    let wcode := cur.weather_code.getD 0
    let currentOut0 : CurrentOut := {
      time := cur.time.getD ""
      temperature := cur.temperature_2m
      feels_like := cur.apparent_temperature
      humidity := cur.relative_humidity_2m
      pressure := cur.pressure_msl
      wind_speed := cur.wind_speed_10m
      wind_direction := cur.wind_direction_10m
      wind_gusts := cur.wind_gusts_10m
      cloud_cover := cur.cloud_cover
      precipitation := cur.precipitation
      weather_code := wcode
      condition := get_weather_description wcode
      emoji := get_weather_emoji wcode
      wet_bulb := none
      precip_type := none }
    let ha := (hourly_data.map (fun h => h.hourly)).getD emptyHourlyArrays
    let ci := clock.current_idx
    let slq : List (Option ℚ) → List (Option ℚ) := fun arr => (arr.drop ci).take 48
    let sls : List String → List String := fun arr => (arr.drop ci).take 48
    let hourlyOut0 : HourlyOut := {
      times := sls ha.time
      temperature := slq ha.temperature_2m
      feels_like := slq ha.apparent_temperature
      humidity := slq ha.relative_humidity_2m
      dew_point := slq ha.dew_point_2m
      precipitation_probability := slq ha.precipitation_probability
      precipitation := slq ha.precipitation
      wind_speed := slq ha.wind_speed_10m
      wind_gusts := slq ha.wind_gusts_10m
      wind_direction := slq ha.wind_direction_10m
      pressure := slq ha.pressure_msl
      cloud_cover := slq ha.cloud_cover
      visibility := slq ha.visibility
      uv_index := slq ha.uv_index
      weather_code := slq ha.weather_code
      temp_850hpa := slq ha.temperature_850hPa
      temp_700hpa := slq ha.temperature_700hPa
      height_850hpa := slq ha.geopotential_height_850hPa
      wet_bulb := [] }
    let wb_temps := (hourlyOut0.temperature.zip hourlyOut0.humidity).map
      (fun p => wet_bulb p.1 p.2)
    let hourlyOut := {hourlyOut0 with wet_bulb := wb_temps}
    let cur_wb := wet_bulb currentOut0.temperature currentOut0.humidity
    let currentOut := {currentOut0 with
      wet_bulb := cur_wb, precip_type := precip_type_label cur_wb}
    let da := (daily_data.map (fun d => d.daily)).getD emptyDailyArrays
    let dailyOut : DailyOut := {
      dates := da.time
      temperature_max := da.temperature_2m_max
      temperature_min := da.temperature_2m_min
      feels_like_max := da.apparent_temperature_max
      feels_like_min := da.apparent_temperature_min
      sunrise := da.sunrise
      sunset := da.sunset
      precipitation_sum := da.precipitation_sum
      precipitation_probability_max := da.precipitation_probability_max
      wind_speed_max := da.wind_speed_10m_max
      wind_gusts_max := da.wind_gusts_10m_max
      uv_index_max := da.uv_index_max
      weather_code := da.weather_code }
    let hyper : Option Hyperlocal :=
      match currentOut.temperature, pwsVal.temperature with
      | some mt, some pt => some ⟨round2q (pt - mt), round2q (mt + round2q (pt - mt))⟩
      | _, _ => none
    let trendGrp := modelTrendOf hourlyOut.pressure
    let fogGrp := fogDerived hourlyOut.temperature hourlyOut.dew_point
      hourlyOut.humidity hourlyOut.wind_speed
    let cur_t850 :=
      match hourlyOut.temp_850hpa.head? with
      | some (some v) => some v
      | _ => none
    let colGrp := colOf cur_t850 currentOut.wet_bulb
    let troughGrp := troughOf hourlyOut.height_850hpa
    let sbGrp := seaBreezeOf pwsVal.temperature (buoy.bind (fun b => b.water_temp_f))
      currentOut.wind_speed currentOut.wind_direction clock.now_hour
    let kbosT := getTendencyHpa kbos
    let buoyT := buoy.bind (fun b => b.pressure_tend_hpa)
    let modelT := trendGrp.map (fun t => t.2)
    let alarmGrp := pressureAlarmBlock kbosT buoyT modelT
    let hasDerived := trendGrp.isSome || fogGrp.isSome || colGrp.isSome ||
      troughGrp.isSome || sbGrp.isSome || alarmGrp.isSome
    let derived0 : DerivedOut := ⟨trendGrp, fogGrp, colGrp, troughGrp, sbGrp, alarmGrp, none⟩
    let wr := windRiskOf hourlyOut.wind_gusts hourlyOut.wind_speed
      hourlyOut.wind_direction hourlyOut.times
      currentOut.wind_gusts currentOut.wind_speed currentOut.wind_direction
    let gustSub := wr.1
    let susSub := wr.2
    let peakTimeTruthy : Option String :=
      match gustSub with
      | some s =>
        match s.peak_time with
        | some t => if t = "" then none else some t
        | none => none
      | none => none
    let derivedFinal : Option DerivedOut :=
      match peakTimeTruthy with
      | some t => some {derived0 with wind_peak_time := some t}
      | none => if hasDerived then some derived0 else none
    let windRiskFinal : Option WindRisk :=
      if gustSub.isSome || susSub.isSome then some ⟨12, gustSub, susSub⟩ else none
    {base with
      current := some currentOut
      hourly := some hourlyOut
      daily := some dailyOut
      hyperlocal := hyper
      derived := derivedFinal
      wind_risk := windRiskFinal}

/-- The sixteen keys every assembled document carries. -/
def baseDocKeys : List String :=
  ["schema_version", "generated_at", "location", "sources", "alerts", "current",
   "hourly", "daily", "tides", "tide_curve", "kbos", "kbvy", "buoy_44013",
   "frost_log", "nws_forecast", "pws"]

/-- Top-level keys of the document in insertion order: the base sixteen plus
hyperlocal, derived and wind_risk when those were written. -/
def docKeys (d : WeatherDoc) : List String :=
  baseDocKeys
  ++ (if d.hyperlocal.isSome then ["hyperlocal"] else [])
  ++ (if d.derived.isSome then ["derived"] else [])
  ++ (if d.wind_risk.isSome then ["wind_risk"] else [])

/-
Helper lemmas.
-/

/-- Length of the retained window. -/
theorem takeLast_length {α : Type} (n : ℕ) (l : List α) :
    (takeLast n l).length = min n l.length := by
  simp [takeLast]
  omega

/-- Every retained element was in the original list. -/
theorem mem_of_mem_takeLast {α : Type} {n : ℕ} {l : List α} {a : α}
    (h : a ∈ takeLast n l) : a ∈ l := by
  simpa [takeLast] using (List.drop_subset _ l h)

/-- A member with a hit makes findSome? succeed. -/
theorem findSome?_isSome_of_mem {α β : Type} {f : α → Option β} {l : List α} {a : α}
    (ha : a ∈ l) (hf : (f a).isSome) : (l.findSome? f).isSome := by
  induction l with
  | nil => cases ha
  | cons x xs ih =>
    rw [List.findSome?_cons]
    cases hfx : f x with
    | none =>
      rcases List.mem_cons.mp ha with h | h
      · subst h; rw [hfx] at hf; cases hf
      · exact ih h
    | some b => rfl

/-- The fresh observation is always retained in the truncated window. -/
theorem mem_asosWindow_self (history : List HistEntry) (obs : AsosObs) :
    (⟨obs, none, none⟩ : HistEntry) ∈ asosWindow history obs := by
  unfold asosWindow takeLast
  have hk : (history ++ [(⟨obs, none, none⟩ : HistEntry)]).length - 6 ≤ history.length := by
    simp only [List.length_append, List.length_singleton]
    omega
  rw [List.drop_append_of_le_length hk]
  simp

/-
C7 — wind exposure table coverage.
-/

set_option maxRecDepth 40000 in
/-- C7: for every integer degree d in [0, 360), exactly one entry of the
wind-exposure table matches d, the exposure factor returned by the sector
lookup lies in [0.05, 1.0], and the 0.5 no-match fallback branch is never
taken (the lookup always finds an entry). -/
theorem C7_exposure_table_coverage :
    ∀ d : Fin 360,
      (WIND_EXPOSURE_TABLE.filter (fun e => sectorMatches d.val e)).length = 1 ∧
      lookupExposure d.val = some (get_exposure_factor (d.val : ℤ)) ∧
      mkRat 5 100 ≤ get_exposure_factor (d.val : ℤ) ∧
      get_exposure_factor (d.val : ℤ) ≤ 1 := by
  decide

/-
C5 — frost log season rollover.
-/

/-- C5: on every frost-log update, season_start is computed as year-10-01 when
today is on or after that date and (year-1)-10-01 otherwise; whenever the
stored season_start differs from the computed one, all three counters reset
to zero and the logged-date set is cleared. -/
theorem C5_frost_season_rollover :
    ∀ (year : ℤ) (today : String) (log : FrostLog),
      (strLe (s!"{year}-10-01") today = true →
        seasonStartFor year today = s!"{year}-10-01") ∧
      (strLe (s!"{year}-10-01") today = false →
        seasonStartFor year today = s!"{year - 1}-10-01") ∧
      (update_frost_log year today (some log) [] []).season_start =
        seasonStartFor year today ∧
      (log.season_start ≠ seasonStartFor year today →
        seasonInit year today (some log) = freshLog (seasonStartFor year today) ∧
        (update_frost_log year today (some log) [] []).freeze_days = 0 ∧
        (update_frost_log year today (some log) [] []).hard_freeze_days = 0 ∧
        (update_frost_log year today (some log) [] []).severe_days = 0 ∧
        (update_frost_log year today (some log) [] []).logged_dates = []) := by
  intro year today log
  refine ⟨fun h => by simp [seasonStartFor, h], fun h => by simp [seasonStartFor, h], ?_, ?_⟩
  · by_cases hc : log.season_start = seasonStartFor year today
    · simp [update_frost_log, seasonInit, hc]
    · simp [update_frost_log, seasonInit, hc, freshLog]
  · intro hne
    refine ⟨by simp [seasonInit, hne], ?_, ?_, ?_, ?_⟩ <;>
      simp [update_frost_log, seasonInit, hne, freshLog, sortDates, takeLast, upcomingFreeze]

/-- C5 witness: a log carrying season_start 2023-10-01 with nonzero counters,
updated on 2024-10-02, resets every counter, clears the logged dates and
adopts season_start 2024-10-01. -/
theorem C5_frost_season_rollover_witness :
    (FrostLog.season_start ⟨"2023-10-01", 5, 3, 1, some "2024-01-20", some "2024-01-20",
        some "2023-12-15", ["2023-12-15", "2024-01-20"], []⟩ ≠
      seasonStartFor 2024 "2024-10-02") ∧
    seasonStartFor 2024 "2024-10-02" = "2024-10-01" ∧
    (update_frost_log 2024 "2024-10-02"
      (some ⟨"2023-10-01", 5, 3, 1, some "2024-01-20", some "2024-01-20",
        some "2023-12-15", ["2023-12-15", "2024-01-20"], []⟩) [] []).season_start =
      seasonStartFor 2024 "2024-10-02" ∧
    (update_frost_log 2024 "2024-10-02"
      (some ⟨"2023-10-01", 5, 3, 1, some "2024-01-20", some "2024-01-20",
        some "2023-12-15", ["2023-12-15", "2024-01-20"], []⟩) [] []).freeze_days = 0 ∧
    (update_frost_log 2024 "2024-10-02"
      (some ⟨"2023-10-01", 5, 3, 1, some "2024-01-20", some "2024-01-20",
        some "2023-12-15", ["2023-12-15", "2024-01-20"], []⟩) [] []).hard_freeze_days = 0 ∧
    (update_frost_log 2024 "2024-10-02"
      (some ⟨"2023-10-01", 5, 3, 1, some "2024-01-20", some "2024-01-20",
        some "2023-12-15", ["2023-12-15", "2024-01-20"], []⟩) [] []).severe_days = 0 ∧
    (update_frost_log 2024 "2024-10-02"
      (some ⟨"2023-10-01", 5, 3, 1, some "2024-01-20", some "2024-01-20",
        some "2023-12-15", ["2023-12-15", "2024-01-20"], []⟩) [] []).logged_dates = [] := by
  have h := C5_frost_season_rollover 2024 "2024-10-02"
    ⟨"2023-10-01", 5, 3, 1, some "2024-01-20", some "2024-01-20",
      some "2023-12-15", ["2023-12-15", "2024-01-20"], []⟩
  obtain ⟨h1, _, h3, h4⟩ := h
  have hne : FrostLog.season_start ⟨"2023-10-01", 5, 3, 1, some "2024-01-20",
      some "2024-01-20", some "2023-12-15", ["2023-12-15", "2024-01-20"], []⟩ ≠
      seasonStartFor 2024 "2024-10-02" := by decide
  obtain ⟨_, c1, c2, c3, c4⟩ := h4 hne
  exact ⟨hne, by decide, h3, c1, c2, c3, c4⟩

/-
C6 — PWS last-known-good fallback.
-/

/-- C6: when the PWS fetch fails and the cache holds a prior value with
non-null temperature, the returned value is a stale copy of the cached value
with an error status carrying the failure message; when no usable cache
exists, the placeholder with null data fields and stale set is returned; the
cache content is rewritten only after a successful fetch, so a failed run
leaves the cached value unchanged. -/
theorem C6_pws_fallback :
    ∀ (cache : Option PwsData) (nowLocal : String) (outcome : Except String (Option ℚ)),
      (∀ e last x, outcome = Except.error e → cache = some last →
        last.temperature = some x →
        fetch_pws_current cache nowLocal outcome =
          ({last with stale := true}, ⟨"error", some e⟩, some last)) ∧
      (∀ last x, outcome = Except.ok none → cache = some last →
        last.temperature = some x →
        (fetch_pws_current cache nowLocal outcome).1 = {last with stale := true}) ∧
      (∀ e, outcome = Except.error e →
        (cache = none ∨ ∃ last, cache = some last ∧ last.temperature = none) →
        (fetch_pws_current cache nowLocal outcome).1 = pwsPlaceholder) ∧
      pwsPlaceholder.temperature = none ∧ pwsPlaceholder.updated = none ∧
      pwsPlaceholder.stale = true ∧
      (∀ e, outcome = Except.error e →
        (fetch_pws_current cache nowLocal outcome).2.2 = cache) ∧
      (outcome = Except.ok none →
        (fetch_pws_current cache nowLocal outcome).2.2 = cache) ∧
      (∀ t, outcome = Except.ok (some t) →
        (fetch_pws_current cache nowLocal outcome).2.2 =
          some (fetch_pws_current cache nowLocal outcome).1 ∧
        (fetch_pws_current cache nowLocal outcome).1.stale = false) := by
  intro cache nowLocal outcome
  refine ⟨?_, ?_, ?_, rfl, rfl, rfl, ?_, ?_, ?_⟩
  · intro e last x ho hc ht
    subst ho; subst hc
    simp [fetch_pws_current, pwsFailure, ht]
  · intro last x ho hc ht
    subst ho; subst hc
    simp [fetch_pws_current, pwsFailure, ht]
  · intro e ho hun
    subst ho
    rcases hun with hc | ⟨last, hc, ht⟩ <;> subst hc <;>
      simp [fetch_pws_current, pwsFailure, *]
  · intro e ho; subst ho
    cases cache with
    | none => simp [fetch_pws_current, pwsFailure]
    | some last =>
      by_cases ht : last.temperature.isSome <;> simp [fetch_pws_current, pwsFailure, ht]
  · intro ho; subst ho
    cases cache with
    | none => simp [fetch_pws_current, pwsFailure]
    | some last =>
      by_cases ht : last.temperature.isSome <;> simp [fetch_pws_current, pwsFailure, ht]
  · intro t ho; subst ho
    exact ⟨rfl, rfl⟩

/-- C6 witness: a cache holding temperature 41.2 together with a simulated
fetch failure yields temperature 41.2 with stale true, an error status
carrying the message, and an unchanged cache. -/
theorem C6_pws_fallback_witness :
    (Except.error "boom" : Except String (Option ℚ)) = Except.error "boom" ∧
    (fetch_pws_current
        (some ⟨"KMAMARBL63", "Castle Hill", some "2026-02-01T07:00:00", some 41.2, false⟩)
        "2026-02-01T08:00:00" (Except.error "boom")).1.temperature = some 41.2 ∧
    (fetch_pws_current
        (some ⟨"KMAMARBL63", "Castle Hill", some "2026-02-01T07:00:00", some 41.2, false⟩)
        "2026-02-01T08:00:00" (Except.error "boom")).1.stale = true ∧
    (fetch_pws_current
        (some ⟨"KMAMARBL63", "Castle Hill", some "2026-02-01T07:00:00", some 41.2, false⟩)
        "2026-02-01T08:00:00" (Except.error "boom")).2.1.error = some "boom" ∧
    (fetch_pws_current
        (some ⟨"KMAMARBL63", "Castle Hill", some "2026-02-01T07:00:00", some 41.2, false⟩)
        "2026-02-01T08:00:00" (Except.error "boom")).2.2 =
      some ⟨"KMAMARBL63", "Castle Hill", some "2026-02-01T07:00:00", some 41.2, false⟩ := by
  obtain ⟨h1, _⟩ := C6_pws_fallback
    (some ⟨"KMAMARBL63", "Castle Hill", some "2026-02-01T07:00:00", some 41.2, false⟩)
    "2026-02-01T08:00:00" (Except.error "boom")
  have h := h1 "boom"
    ⟨"KMAMARBL63", "Castle Hill", some "2026-02-01T07:00:00", some 41.2, false⟩
    41.2 rfl rfl rfl
  refine ⟨rfl, ?_, ?_, ?_, ?_⟩ <;> rw [h]

/-
C1 — pressure alarm arbitration.
-/

/-- C1: the pressure alarm selects the first non-null tendency in the
priority order KBOS observed tendency, then buoy tendency, then model 3-hour
trend; it reports falling exactly when the selected tendency is at most
-3.0 hPa and rising exactly when it is at least +3.0 hPa, otherwise no
alarm; whenever a tendency is selected, the chosen source name is recorded
alongside the (rounded) value. -/
theorem C1_pressure_alarm :
    ∀ (k b m : Option ℚ),
      (∀ t, k = some t → bestPressureTend k b m = some (t, "KBOS")) ∧
      (k = none → ∀ t, b = some t → bestPressureTend k b m = some (t, "Buoy")) ∧
      (k = none → b = none → ∀ t, m = some t →
        bestPressureTend k b m = some (t, "model")) ∧
      (k = none → b = none → m = none → pressureAlarmBlock k b m = none) ∧
      ((pressureAlarmBlock k b m).isSome = (bestPressureTend k b m).isSome) ∧
      (∀ t src r, bestPressureTend k b m = some (t, src) →
        pressureAlarmBlock k b m = some r →
        r.best_pressure_tend = round1 t ∧ r.best_pressure_tend_src = src ∧
        (r.pressure_alarm = some "falling" ↔ t ≤ -3) ∧
        (r.pressure_alarm = some "rising" ↔ 3 ≤ t) ∧
        (r.pressure_alarm = none ↔ (-3 < t ∧ t < 3))) := by
  intro k b m
  refine ⟨?_, ?_, ?_, ?_, ?_, ?_⟩
  · intro t hk; subst hk; rfl
  · intro hk t hb; subst hk; subst hb; rfl
  · intro hk hb t hm; subst hk; subst hb; subst hm; rfl
  · intro hk hb hm; subst hk; subst hb; subst hm; rfl
  · cases hsel : bestPressureTend k b m with
    | none => rw [pressureAlarmBlock, hsel]; rfl
    | some td =>
      rw [pressureAlarmBlock, hsel]
      dsimp only
      split_ifs <;> rfl
  · intro t src r hsel halarm
    have hred : pressureAlarmBlock k b m =
        (if t ≤ -3 then
          some ⟨round1 t, src, some "falling",
            some ("⚠️ Pressure falling fast (" ++ signedTenth t ++ " hPa, " ++ src ++ ")")⟩
        else if 3 ≤ t then
          some ⟨round1 t, src, some "rising",
            some ("📈 Pressure rising fast (" ++ signedTenth t ++ " hPa, " ++ src ++ ")")⟩
        else some ⟨round1 t, src, none, none⟩) := by
      rw [pressureAlarmBlock, hsel]
    rw [hred] at halarm
    split_ifs at halarm with h1 h2
    · obtain rfl := (Option.some_inj.mp halarm).symm
      refine ⟨rfl, rfl, ⟨fun _ => h1, fun _ => rfl⟩, ?_, ?_⟩
      · constructor
        · intro hh
          exact absurd (show (some "falling" : Option String) = some "rising" from hh)
            (by decide)
        · intro h3
          have hcon : (3 : ℚ) ≤ -3 := le_trans h3 h1
          norm_num at hcon
      · constructor
        · intro hh
          exact nomatch (show (some "falling" : Option String) = none from hh)
        · intro hp
          exact absurd hp.1 (not_lt.mpr h1)
    · obtain rfl := (Option.some_inj.mp halarm).symm
      refine ⟨rfl, rfl, ?_, ⟨fun _ => h2, fun _ => rfl⟩, ?_⟩
      · constructor
        · intro hh
          exact absurd (show (some "rising" : Option String) = some "falling" from hh)
            (by decide)
        · intro hf
          exact absurd hf h1
      · constructor
        · intro hh
          exact nomatch (show (some "rising" : Option String) = none from hh)
        · intro hp
          exact absurd h2 (not_le.mpr hp.2)
    · obtain rfl := (Option.some_inj.mp halarm).symm
      refine ⟨rfl, rfl, ?_, ?_, ?_⟩
      · constructor
        · intro hh
          exact nomatch (show (none : Option String) = some "falling" from hh)
        · intro hf
          exact absurd hf h1
      · constructor
        · intro hh
          exact nomatch (show (none : Option String) = some "rising" from hh)
        · intro hr
          exact absurd hr h2
      · exact ⟨fun _ => ⟨not_le.mp h1, not_le.mp h2⟩, fun _ => rfl⟩

/-- C1 witness: a KBOS tendency of -4.0 hPa wins the arbitration over a buoy
tendency, is recorded with its source, and fires the falling alarm. -/
theorem C1_pressure_alarm_witness :
    ((some (-4) : Option ℚ) = some (-4)) ∧
    bestPressureTend (some (-4)) (some 1) none = some (-4, "KBOS") ∧
    ∃ r, pressureAlarmBlock (some (-4)) (some 1) none = some r ∧
      r.best_pressure_tend = round1 (-4) ∧ r.best_pressure_tend_src = "KBOS" ∧
      r.pressure_alarm = some "falling" := by
  obtain ⟨h1, _, _, _, h5, h6⟩ := C1_pressure_alarm (some (-4)) (some 1) none
  have hsel := h1 (-4) rfl
  have hs : (pressureAlarmBlock (some (-4)) (some 1) none).isSome := by
    rw [h5, hsel]; rfl
  obtain ⟨r, hr⟩ := Option.isSome_iff_exists.mp hs
  obtain ⟨hv, hsrc, hfiff, _, _⟩ := h6 (-4) "KBOS" r hsel hr
  exact ⟨rfl, hsel, r, hr, hv, hsrc, hfiff.mpr (by norm_num)⟩

/-
C3 — rolling history and tendency.
-/

/-- Tendency is undefined when no window pressure is non-null. -/
theorem asosTendency_none_first (window : List HistEntry) (np? : Option ℚ)
    (h : firstWindowPressure window = none) : asosTendency window np? = (none, none) := by
  unfold asosTendency
  rw [h]

/-- Tendency is undefined when the newest pressure is null. -/
theorem asosTendency_none_newest (window : List HistEntry) (fp : ℚ)
    (h : firstWindowPressure window = some fp) :
    asosTendency window none = (none, none) := by
  unfold asosTendency
  rw [h]

/-- Tendency on a window with a first non-null pressure and a non-null
newest pressure. -/
theorem asosTendency_some (window : List HistEntry) (fp np : ℚ)
    (h : firstWindowPressure window = some fp) :
    asosTendency window (some np) =
      (if 2 ≤ window.length then
        (some (round1 (np - fp)), some (pressureBandLabel (round1 (np - fp))))
      else (none, none)) := by
  unfold asosTendency
  rw [h]

/-- C3 counterexample: with a cached window whose earliest entry has a null
pressure and a fresh observation carrying a pressure, the code still returns
a (non-null) tendency, although the claim requires the earliest pressure of
the truncated window to be non-null for a tendency to exist. -/
theorem C3_counterexample :
    (asosUpdate [⟨⟨"KBOS", "t0", none, none, none, none, none⟩, none, none⟩]
        ⟨"KBOS", "t1", some 1005, none, none, none, none⟩).1.length = 2 ∧
    ((asosUpdate [⟨⟨"KBOS", "t0", none, none, none, none, none⟩, none, none⟩]
        ⟨"KBOS", "t1", some 1005, none, none, none, none⟩).1.head?.map
      (fun e => e.obs.pressure_hpa)) = some none ∧
    (asosUpdate [⟨⟨"KBOS", "t0", none, none, none, none, none⟩, none, none⟩]
        ⟨"KBOS", "t1", some 1005, none, none, none, none⟩).2.1.isSome = true := by
  refine ⟨by decide, by decide, by decide⟩

/-- C3 (amended): the update appends the observation and truncates to the
most recent 6 entries; the tendency is defined iff the truncated window has
at least 2 entries and the newest pressure is non-null, and it then equals
the newest pressure minus the earliest non-null pressure still present in
the window (not necessarily the earliest entry), rounded; the label follows
the shared bands with extreme thresholds checked before moderate ones. -/
theorem C3_rolling_tendency :
    ∀ (history : List HistEntry) (obs : AsosObs),
      asosUpdate history obs =
        (asosWindow history obs, asosTendency (asosWindow history obs) obs.pressure_hpa) ∧
      asosWindow history obs = takeLast 6 (history ++ [⟨obs, none, none⟩]) ∧
      (asosWindow history obs).length = min 6 (history.length + 1) ∧
      ((asosTendency (asosWindow history obs) obs.pressure_hpa).1.isSome ↔
        (2 ≤ (asosWindow history obs).length ∧ obs.pressure_hpa.isSome)) ∧
      (∀ t, (asosTendency (asosWindow history obs) obs.pressure_hpa).1 = some t →
        ∃ np fp, obs.pressure_hpa = some np ∧
          firstWindowPressure (asosWindow history obs) = some fp ∧
          t = round1 (np - fp)) ∧
      ((asosTendency (asosWindow history obs) obs.pressure_hpa).2 =
        (asosTendency (asosWindow history obs) obs.pressure_hpa).1.map pressureBandLabel) ∧
      (∀ t : ℚ, 3 ≤ t → pressureBandLabel t = "Rising fast") ∧
      (∀ t : ℚ, 6/10 ≤ t → t < 3 → pressureBandLabel t = "Rising") ∧
      (∀ t : ℚ, t ≤ -3 → pressureBandLabel t = "Falling fast") ∧
      (∀ t : ℚ, -3 < t → t ≤ -(6/10) → pressureBandLabel t = "Falling") ∧
      (∀ t : ℚ, -(6/10) < t → t < 6/10 → pressureBandLabel t = "Steady") := by
  intro history obs
  refine ⟨rfl, rfl, ?_, ?_, ?_, ?_, ?_, ?_, ?_, ?_, ?_⟩
  · rw [asosWindow, takeLast_length]
    simp
  · constructor
    · intro hs
      cases hfp : firstWindowPressure (asosWindow history obs) with
      | none => rw [asosTendency_none_first _ _ hfp] at hs; simp at hs
      | some fp =>
        cases hnp : obs.pressure_hpa with
        | none => rw [hnp, asosTendency_none_newest _ _ hfp] at hs; simp at hs
        | some np =>
          rw [hnp, asosTendency_some _ _ _ hfp] at hs
          by_cases hlen : 2 ≤ (asosWindow history obs).length
          · exact ⟨hlen, rfl⟩
          · rw [if_neg hlen] at hs; simp at hs
    · rintro ⟨hlen, hsome⟩
      obtain ⟨np, hnp⟩ := Option.isSome_iff_exists.mp hsome
      have hmem := mem_asosWindow_self history obs
      have hfs : (firstWindowPressure (asosWindow history obs)).isSome := by
        apply findSome?_isSome_of_mem hmem
        simp [hnp]
      obtain ⟨fp, hfp⟩ := Option.isSome_iff_exists.mp hfs
      rw [hnp, asosTendency_some _ _ _ hfp, if_pos hlen]
      rfl
  · intro t ht
    cases hfp : firstWindowPressure (asosWindow history obs) with
    | none => rw [asosTendency_none_first _ _ hfp] at ht; simp at ht
    | some fp =>
      cases hnp : obs.pressure_hpa with
      | none => rw [hnp, asosTendency_none_newest _ _ hfp] at ht; simp at ht
      | some np =>
        rw [hnp, asosTendency_some _ _ _ hfp] at ht
        by_cases hlen : 2 ≤ (asosWindow history obs).length
        · rw [if_pos hlen] at ht
          exact ⟨np, fp, rfl, rfl, (Option.some_inj.mp ht).symm⟩
        · rw [if_neg hlen] at ht; simp at ht
  · cases hfp : firstWindowPressure (asosWindow history obs) with
    | none => rw [asosTendency_none_first _ _ hfp]; rfl
    | some fp =>
      cases hnp : obs.pressure_hpa with
      | none => rw [asosTendency_none_newest _ _ hfp]; rfl
      | some np =>
        rw [asosTendency_some _ _ _ hfp]
        by_cases hlen : 2 ≤ (asosWindow history obs).length
        · rw [if_pos hlen]; rfl
        · rw [if_neg hlen]; rfl
  · intro t h3
    rw [pressureBandLabel, if_pos h3]
  · intro t h06 h3
    rw [pressureBandLabel, if_neg (by linarith), if_pos h06]
  · intro t hf3
    rw [pressureBandLabel, if_neg (by linarith), if_neg (by linarith), if_pos hf3]
  · intro t hg hf06
    rw [pressureBandLabel, if_neg (by linarith), if_neg (by linarith),
      if_neg (by linarith), if_pos hf06]
  · intro t hg hl
    rw [pressureBandLabel, if_neg (by linarith), if_neg (by linarith),
      if_neg (by linarith), if_neg (by linarith)]

/-- C3 witness: concrete instances of the amended statement — the window
length on a singleton history and each labeling band at a sample point. -/
theorem C3_rolling_tendency_witness :
    (asosWindow [] ⟨"KBOS", "t0", some 1000, none, none, none, none⟩).length = min 6 (0 + 1) ∧
    pressureBandLabel 3 = "Rising fast" ∧
    pressureBandLabel 1 = "Rising" ∧
    pressureBandLabel (-3) = "Falling fast" ∧
    pressureBandLabel (-1) = "Falling" ∧
    pressureBandLabel 0 = "Steady" := by
  obtain ⟨_, _, h3, _, _, _, hrf, hr, hff, hf, hs⟩ :=
    C3_rolling_tendency [] ⟨"KBOS", "t0", some 1000, none, none, none, none⟩
  exact ⟨h3, hrf 3 (by norm_num), hr 1 (by norm_num) (by norm_num),
    hff (-3) (by norm_num), hf (-1) (by norm_num) (by norm_num),
    hs 0 (by norm_num) (by norm_num)⟩

/-
C9 — fog probability.
-/

/-- C9 counterexample: a slot with a missing temperature but a (physically
absurd) dewpoint of 998 °F passes the fog test, so a missing input does not
always force a non-match: the one-slot window yields 100 percent, Likely. -/
theorem C9_counterexample :
    fogSlotFoggy none (some 998) (some 93) (some 0) = true ∧
    fogDerived [none] [some 998] [some 93] [some 0] = some (100, "Likely", 1) := by
  have hslot : fogSlotFoggy none (some 998) (some 93) (some 0) = true := by
    simp only [fogSlotFoggy, Option.getD_none, Option.getD_some]
    norm_num
  refine ⟨hslot, ?_⟩
  have hn : fogWindowSize [none] [some 998] [some 93] [some 0] = 1 := by decide
  have hz : ((([(none : Option ℚ)].zip [some (998:ℚ)]).zip
      ([some (93:ℚ)].zip [some (0:ℚ)])).take 1) =
      [((none, some 998), (some 93, some 0))] := by decide
  have hh : fogHoursCount [none] [some 998] [some 93] [some 0] 1 = 1 := by
    rw [fogHoursCount, hz]
    simp [List.filter_cons, hslot]
  rw [fogDerived, hn, hh]
  norm_num [pyRound, fogLabelFor]

/-- C9 (amended): the fog block scans a window of min(12, available) slots;
a slot is foggy exactly when the defaulted values satisfy the three criteria
(missing humidity or wind always forces a non-match; missing temperature or
dewpoint forces a non-match provided the other of the pair is physically
plausible); the probability is the rounded foggy share of the window with
the Likely / Possible / Low chance / Unlikely bands, and no fog output is
produced for an empty window; 9 foggy slots out of 12 give 75, Likely. -/
theorem C9_fog_probability :
    ∀ (temp dew rh ws : List (Option ℚ)),
      (fogDerived temp dew rh ws = none ↔ fogWindowSize temp dew rh ws = 0) ∧
      (∀ pct lbl fh, fogDerived temp dew rh ws = some (pct, lbl, fh) →
        fh = fogHoursCount temp dew rh ws (fogWindowSize temp dew rh ws) ∧
        pct = pyRound ((fh : ℚ) / (fogWindowSize temp dew rh ws : ℚ) * 100) ∧
        lbl = fogLabelFor pct) ∧
      (∀ t d h w : Option ℚ, fogSlotFoggy t d h w = true ↔
        (t.getD 999 - d.getD (-999) ≤ 2 ∧ 93 ≤ h.getD 0 ∧ w.getD 999 ≤ 10)) ∧
      (∀ t d w : Option ℚ, fogSlotFoggy t d none w = false) ∧
      (∀ t d h : Option ℚ, fogSlotFoggy t d h none = false) ∧
      (∀ d h w : Option ℚ, (∀ x : ℚ, d = some x → x < 997) →
        fogSlotFoggy none d h w = false) ∧
      (∀ t h w : Option ℚ, (∀ x : ℚ, t = some x → -997 < x) →
        fogSlotFoggy t none h w = false) ∧
      (∀ p : ℤ, (fogLabelFor p = "Likely" ↔ 75 ≤ p) ∧
        (fogLabelFor p = "Possible" ↔ (40 ≤ p ∧ p < 75)) ∧
        (fogLabelFor p = "Low chance" ↔ (15 ≤ p ∧ p < 40)) ∧
        (fogLabelFor p = "Unlikely" ↔ p < 15)) ∧
      (fogWindowSize temp dew rh ws = 12 →
        fogHoursCount temp dew rh ws 12 = 9 →
        fogDerived temp dew rh ws = some (75, "Likely", 9)) := by
  intro temp dew rh ws
  refine ⟨?_, ?_, ?_, ?_, ?_, ?_, ?_, ?_, ?_⟩
  · unfold fogDerived
    by_cases hn : fogWindowSize temp dew rh ws = 0
    · simp [hn]
    · simp [hn]
  · intro pct lbl fh hd
    unfold fogDerived at hd
    by_cases hn : fogWindowSize temp dew rh ws = 0
    · rw [if_pos hn] at hd; cases hd
    · rw [if_neg hn] at hd
      injection hd with h
      injection h with h1 h23
      injection h23 with h2 h3
      subst h3
      refine ⟨rfl, h1.symm, ?_⟩
      rw [← h1]
      exact h2.symm
  · intro t d h w
    unfold fogSlotFoggy
    simp only [Bool.and_eq_true, decide_eq_true_eq]
    exact and_assoc
  · intro t d w
    simp only [fogSlotFoggy, Option.getD_none]
    have : decide ((93 : ℚ) ≤ 0) = false := by norm_num
    rw [this]
    simp
  · intro t d h
    simp only [fogSlotFoggy, Option.getD_none]
    have : decide ((999 : ℚ) ≤ 10) = false := by norm_num
    rw [this]
    simp
  · intro d h w hd
    cases d with
    | none =>
      simp only [fogSlotFoggy, Option.getD_none]
      have : decide ((999 : ℚ) - (-999) ≤ 2) = false := by norm_num
      rw [this]
      simp
    | some x =>
      have hx := hd x rfl
      simp only [fogSlotFoggy, Option.getD_none, Option.getD_some]
      have : decide ((999 : ℚ) - x ≤ 2) = false := by
        rw [decide_eq_false_iff_not]
        intro hcon
        linarith
      rw [this]
      simp
  · intro t h w ht
    cases t with
    | none =>
      simp only [fogSlotFoggy, Option.getD_none]
      have : decide ((999 : ℚ) - (-999) ≤ 2) = false := by norm_num
      rw [this]
      simp
    | some x =>
      have hx := ht x rfl
      simp only [fogSlotFoggy, Option.getD_none, Option.getD_some]
      have : decide (x - (-999) ≤ 2) = false := by
        rw [decide_eq_false_iff_not]
        intro hcon
        linarith
      rw [this]
      simp
  · intro p
    unfold fogLabelFor
    refine ⟨?_, ?_, ?_, ?_⟩ <;> split_ifs with h1 h2 h3 <;>
      constructor <;> intro hh <;> first
        | rfl
        | omega
        | (exact absurd hh (by decide))
  · intro h12 h9
    rw [fogDerived, h12, h9]
    norm_num [pyRound, fogLabelFor]

/-- C9 witness: a 12-slot window with the fog criteria met in exactly 9
slots yields a 75 percent fog probability labeled Likely. -/
theorem C9_fog_probability_witness :
    fogWindowSize (List.replicate 12 (some 50)) (List.replicate 12 (some 49))
        (List.replicate 9 (some 95) ++ List.replicate 3 (some 50))
        (List.replicate 12 (some 5)) = 12 ∧
    fogHoursCount (List.replicate 12 (some 50)) (List.replicate 12 (some 49))
        (List.replicate 9 (some 95) ++ List.replicate 3 (some 50))
        (List.replicate 12 (some 5)) 12 = 9 ∧
    fogDerived (List.replicate 12 (some 50)) (List.replicate 12 (some 49))
        (List.replicate 9 (some 95) ++ List.replicate 3 (some 50))
        (List.replicate 12 (some 5)) = some (75, "Likely", 9) := by
  have h12 : fogWindowSize (List.replicate 12 (some 50)) (List.replicate 12 (some 49))
      (List.replicate 9 (some 95) ++ List.replicate 3 (some 50))
      (List.replicate 12 (some 5)) = 12 := by decide
  have hA : fogSlotFoggy (some 50) (some 49) (some 95) (some 5) = true := by
    simp only [fogSlotFoggy, Option.getD_some]
    norm_num
  have hB : fogSlotFoggy (some 50) (some 49) (some 50) (some 5) = false := by
    simp only [fogSlotFoggy, Option.getD_some]
    have : decide ((93 : ℚ) ≤ 50) = false := by norm_num
    rw [this]
    simp
  have hz : ((((List.replicate 12 (some (50:ℚ))).zip (List.replicate 12 (some (49:ℚ)))).zip
      ((List.replicate 9 (some (95:ℚ)) ++ List.replicate 3 (some (50:ℚ))).zip
        (List.replicate 12 (some (5:ℚ))))).take 12) =
      List.replicate 9 ((some 50, some 49), (some 95, some 5)) ++
        List.replicate 3 ((some 50, some 49), (some 50, some 5)) := by decide
  have h9 : fogHoursCount (List.replicate 12 (some 50)) (List.replicate 12 (some 49))
      (List.replicate 9 (some 95) ++ List.replicate 3 (some 50))
      (List.replicate 12 (some 5)) 12 = 9 := by
    rw [fogHoursCount, hz]
    simp [List.filter_cons, List.filter_append, hA, hB, List.replicate]
  obtain ⟨_, _, _, _, _, _, _, _, hsc⟩ :=
    C9_fog_probability (List.replicate 12 (some 50)) (List.replicate 12 (some 49))
      (List.replicate 9 (some 95) ++ List.replicate 3 (some 50))
      (List.replicate 12 (some 5))
  exact ⟨h12, h9, hsc h12 h9⟩

/-
C4 — frost log fold idempotence.
-/

/-- A daily-fold step on a skippable pair leaves the state unchanged. -/
theorem frostStep_skip (today ss : String) (log : FrostLog) (logged : List String)
    (dm : String × Option ℚ)
    (h : strLe today dm.1 = true ∨ strLt dm.1 ss = true ∨ dm.1 ∈ logged) :
    frostStep today ss (log, logged) dm = (log, logged) := by
  rcases h with h | h | h
  · simp [frostStep, h]
  · by_cases h0 : strLe today dm.1 = true <;> simp [frostStep, h0, h]
  · by_cases h0 : strLe today dm.1 = true <;> by_cases h1 : strLt dm.1 ss = true <;>
      simp [frostStep, h0, h1, h]

/-- Folding over pairs that are all skippable leaves the state unchanged. -/
theorem frostFold_skip (today ss : String) (pairs : List (String × Option ℚ))
    (log : FrostLog) (logged : List String)
    (h : ∀ dm ∈ pairs, strLe today dm.1 = true ∨ strLt dm.1 ss = true ∨ dm.1 ∈ logged) :
    pairs.foldl (frostStep today ss) (log, logged) = (log, logged) := by
  induction pairs with
  | nil => rfl
  | cons p ps ih =>
    rw [List.foldl_cons, frostStep_skip today ss log logged p (h p (by simp))]
    exact ih (fun dm hm => h dm (by simp [hm]))

/-- One fold step preserves season_start. -/
theorem frostStep_season (today ss : String) (acc : FrostLog × List String)
    (dm : String × Option ℚ) :
    (frostStep today ss acc dm).1.season_start = acc.1.season_start := by
  unfold frostStep
  cases hdm : dm.2 with
  | none => dsimp only; split_ifs <;> rfl
  | some t => dsimp only; split_ifs <;> rfl

/-- The whole fold preserves season_start. -/
theorem frostFold_season (today ss : String) (pairs : List (String × Option ℚ))
    (acc : FrostLog × List String) :
    ((pairs.foldl (frostStep today ss) acc).1).season_start = acc.1.season_start := by
  induction pairs generalizing acc with
  | nil => rfl
  | cons p ps ih => rw [List.foldl_cons, ih]; exact frostStep_season today ss acc p

/-- The season init always yields the computed season_start. -/
theorem seasonInit_season (year : ℤ) (today : String) (stored : Option FrostLog) :
    (seasonInit year today stored).season_start = seasonStartFor year today := by
  cases stored with
  | none => rfl
  | some log =>
    by_cases hc : log.season_start = seasonStartFor year today <;> simp [seasonInit, hc, freshLog]

/-- The counters of a full update are the counters left by the daily fold. -/
theorem update_counters_eq (year : ℤ) (today : String) (stored : Option FrostLog)
    (dates : List String) (mins : List (Option ℚ)) :
    (update_frost_log year today stored dates mins).freeze_days =
      ((dates.zip mins).foldl (frostStep today (seasonStartFor year today))
        (seasonInit year today stored,
          (seasonInit year today stored).logged_dates.dedup)).1.freeze_days ∧
    (update_frost_log year today stored dates mins).hard_freeze_days =
      ((dates.zip mins).foldl (frostStep today (seasonStartFor year today))
        (seasonInit year today stored,
          (seasonInit year today stored).logged_dates.dedup)).1.hard_freeze_days ∧
    (update_frost_log year today stored dates mins).severe_days =
      ((dates.zip mins).foldl (frostStep today (seasonStartFor year today))
        (seasonInit year today stored,
          (seasonInit year today stored).logged_dates.dedup)).1.severe_days := by
  unfold update_frost_log
  exact ⟨rfl, rfl, rfl⟩

/-- The season_start of a full update is the computed one. -/
theorem update_season_start (year : ℤ) (today : String) (stored : Option FrostLog)
    (dates : List String) (mins : List (Option ℚ)) :
    (update_frost_log year today stored dates mins).season_start =
      seasonStartFor year today := by
  show ((dates.zip mins).foldl (frostStep today (seasonStartFor year today))
      (seasonInit year today stored,
        (seasonInit year today stored).logged_dates.dedup)).1.season_start =
    seasonStartFor year today
  rw [frostFold_season]
  exact seasonInit_season year today stored

set_option maxRecDepth 100000 in
set_option maxHeartbeats 4000000 in
/-- C4 counterexample: with a stored log already tracking 60 processed dates
and a series containing one further past in-season date (at 30 °F) that
sorts before all of them, the first run counts it (freeze_days 1) but the
60-entry cap on logged_dates evicts it again, so an identical second run
counts it once more (freeze_days 2) — the double run is not idempotent. -/
theorem C4_counterexample :
    (update_frost_log 2025 "9"
        (some ⟨"2025-10-01", 0, 0, 0, none, none, none,
          (List.range 60).map (fun i => "5" ++ toString i), []⟩)
        ["3"] [some (30 : ℚ)]).freeze_days = 1 ∧
    (update_frost_log 2025 "9"
        (some (update_frost_log 2025 "9"
          (some ⟨"2025-10-01", 0, 0, 0, none, none, none,
            (List.range 60).map (fun i => "5" ++ toString i), []⟩)
          ["3"] [some (30 : ℚ)]))
        ["3"] [some (30 : ℚ)]).freeze_days = 2 := by
  constructor
  · decide
  · decide

/-- C4 (amended): running the daily fold twice with identical input yields
the same freeze, hard-freeze and severe counters as running it once,
provided every date of the series is either not a strictly-past in-season
date or still present in the first run's retained logged_dates (the 60-entry
retention bound can evict processed dates and break idempotence otherwise);
dates kept in logged_dates are skipped by the second run. -/
theorem C4_frost_fold_idempotent :
    ∀ (year : ℤ) (today : String) (stored : Option FrostLog)
      (dates : List String) (mins : List (Option ℚ)),
      (∀ dm ∈ dates.zip mins, strLe today dm.1 = true ∨
        strLt dm.1 (seasonStartFor year today) = true ∨
        dm.1 ∈ (update_frost_log year today stored dates mins).logged_dates) →
      (update_frost_log year today (some (update_frost_log year today stored dates mins))
          dates mins).freeze_days =
        (update_frost_log year today stored dates mins).freeze_days ∧
      (update_frost_log year today (some (update_frost_log year today stored dates mins))
          dates mins).hard_freeze_days =
        (update_frost_log year today stored dates mins).hard_freeze_days ∧
      (update_frost_log year today (some (update_frost_log year today stored dates mins))
          dates mins).severe_days =
        (update_frost_log year today stored dates mins).severe_days := by
  intro year today stored dates mins h
  have hseason : (update_frost_log year today stored dates mins).season_start =
      seasonStartFor year today := update_season_start year today stored dates mins
  have hinit : seasonInit year today
      (some (update_frost_log year today stored dates mins)) =
      update_frost_log year today stored dates mins := by
    simp [seasonInit, hseason]
  have hskip : (dates.zip mins).foldl (frostStep today (seasonStartFor year today))
      (update_frost_log year today stored dates mins,
        (update_frost_log year today stored dates mins).logged_dates.dedup) =
      (update_frost_log year today stored dates mins,
        (update_frost_log year today stored dates mins).logged_dates.dedup) := by
    apply frostFold_skip
    intro dm hm
    rcases h dm hm with h1 | h1 | h1
    · exact Or.inl h1
    · exact Or.inr (Or.inl h1)
    · exact Or.inr (Or.inr (List.mem_dedup.mpr h1))
  obtain ⟨e1, e2, e3⟩ := update_counters_eq year today
    (some (update_frost_log year today stored dates mins)) dates mins
  rw [hinit] at e1 e2 e3
  rw [hskip] at e1 e2 e3
  exact ⟨e1, e2, e3⟩

/-- C4 witness: a single past in-season date retained in logged_dates, so
the second run changes no counter. -/
theorem C4_frost_fold_idempotent_witness :
    (∀ dm ∈ (["2024-11-10"].zip [some (30 : ℚ)]), strLe "2025-01-15" dm.1 = true ∨
      strLt dm.1 (seasonStartFor 2025 "2025-01-15") = true ∨
      dm.1 ∈ (update_frost_log 2025 "2025-01-15" none
        ["2024-11-10"] [some (30 : ℚ)]).logged_dates) ∧
    (update_frost_log 2025 "2025-01-15"
        (some (update_frost_log 2025 "2025-01-15" none ["2024-11-10"] [some (30 : ℚ)]))
        ["2024-11-10"] [some (30 : ℚ)]).freeze_days =
      (update_frost_log 2025 "2025-01-15" none ["2024-11-10"] [some (30 : ℚ)]).freeze_days := by
  refine ⟨by decide, ?_⟩
  exact (C4_frost_fold_idempotent 2025 "2025-01-15" none ["2024-11-10"]
    [some (30 : ℚ)] (by decide)).1

/-
C10 — the ASOS history cache never persists tendency fields.
-/

/-- Invariant: runs of fetch_asos_obs never write tendency keys to the file. -/
theorem runAsos_inv (outcomes : List (Option AsosObs)) :
    ∀ (file : List HistEntry),
      (∀ e ∈ file, e.tendency_hpa = none ∧ e.tendency_label = none) →
      ∀ e ∈ runAsos file outcomes, e.tendency_hpa = none ∧ e.tendency_label = none := by
  induction outcomes with
  | nil => intro file hfile; exact hfile
  | cons oc ocs ih =>
    intro file hfile e he
    refine ih ((fetch_asos_obs file oc).2) ?_ e he
    intro x hx
    cases oc with
    | some obs =>
      have hx2 : x ∈ takeLast 6 (file ++ [(⟨obs, none, none⟩ : HistEntry)]) := hx
      rcases List.mem_append.mp (mem_of_mem_takeLast hx2) with hm | hm
      · exact hfile x hm
      · rw [List.mem_singleton.mp hm]
        exact ⟨rfl, rfl⟩
    | none =>
      have h2 : (fetch_asos_obs file none).2 = file := by
        unfold fetch_asos_obs
        cases file.getLast? <;> rfl
      rw [h2] at hx
      exact hfile x hx

/-- C10: starting from an empty cache file, every entry persisted by any
sequence of runs lacks the tendency fields (the file is written before the
tendency is attached to the in-memory observation); consequently a stale
fallback observation returned on a failed fetch carries no tendency, and a
stale KBOS observation can never be the source selected by the pressure
alarm. -/
theorem C10_asos_cache_tendency_absent :
    ∀ (outcomes : List (Option AsosObs)),
      (∀ e ∈ runAsos [] outcomes, e.tendency_hpa = none ∧ e.tendency_label = none) ∧
      (∀ r, (fetch_asos_obs (runAsos [] outcomes) none).1 = some r →
        r.entry.tendency_hpa = none ∧ r.entry.tendency_label = none ∧
        r.stale = some true) ∧
      getTendencyHpa (fetch_asos_obs (runAsos [] outcomes) none).1 = none ∧
      (∀ (b m : Option ℚ) (t : ℚ),
        bestPressureTend (getTendencyHpa (fetch_asos_obs (runAsos [] outcomes) none).1) b m ≠
          some (t, "KBOS")) := by
  intro outcomes
  have hinv := runAsos_inv outcomes [] (by intro e he; cases he)
  have hfall : ∀ r, (fetch_asos_obs (runAsos [] outcomes) none).1 = some r →
      r.entry.tendency_hpa = none ∧ r.entry.tendency_label = none ∧
      r.stale = some true := by
    intro r hr
    unfold fetch_asos_obs at hr
    cases hL : (runAsos [] outcomes).getLast? with
    | none => rw [hL] at hr; cases hr
    | some last =>
      rw [hL] at hr
      obtain rfl := (Option.some_inj.mp hr).symm
      have hmem := hinv last (List.mem_of_mem_getLast? hL)
      exact ⟨hmem.1, hmem.2, rfl⟩
  have hnone : getTendencyHpa (fetch_asos_obs (runAsos [] outcomes) none).1 = none := by
    cases hr : (fetch_asos_obs (runAsos [] outcomes) none).1 with
    | none => rfl
    | some r =>
      obtain ⟨h1, _, _⟩ := hfall r hr
      show r.entry.tendency_hpa.getD none = none
      rw [h1]
      rfl
  refine ⟨hinv, hfall, hnone, ?_⟩
  intro b m t
  rw [hnone]
  cases b with
  | some v =>
    intro hcon
    have := (Prod.mk.injEq .. ▸ Option.some_inj.mp hcon).2
    exact absurd this (by decide)
  | none =>
    cases m with
    | some v =>
      intro hcon
      have := (Prod.mk.injEq .. ▸ Option.some_inj.mp hcon).2
      exact absurd this (by decide)
    | none => intro hcon; cases hcon

/-- C10 witness: after one successful run, a failed run returns a stale
observation whose tendency reading is null, so the alarm arbitration at that
reading never selects KBOS. -/
theorem C10_asos_cache_tendency_absent_witness :
    getTendencyHpa (fetch_asos_obs
      (runAsos [] [some ⟨"KBOS", "t0", some 1017, none, none, none, none⟩]) none).1 = none ∧
    bestPressureTend (getTendencyHpa (fetch_asos_obs
      (runAsos [] [some ⟨"KBOS", "t0", some 1017, none, none, none, none⟩]) none).1)
      (some 5) none ≠ some (5, "KBOS") := by
  obtain ⟨_, _, h3, h4⟩ :=
    C10_asos_cache_tendency_absent [some ⟨"KBOS", "t0", some 1017, none, none, none, none⟩]
  exact ⟨h3, h4 (some 5) none 5⟩

/-
C8 — wind risk model.
-/

/-- Unrolling of the peak scan by one slot. -/
theorem find_peakAux_succ (values dirs : List (Option ℚ)) (n : ℕ) :
    find_peakAux values dirs (n + 1) =
      (match safe_num (values.getD n none), safe_num (dirs.getD n none) with
       | some v, some d =>
         if (find_peakAux values dirs n).1 < v then (v, some (d, n))
         else find_peakAux values dirs n
       | _, _ => find_peakAux values dirs n) := by
  unfold find_peakAux
  rw [List.range_succ, List.foldl_append, List.foldl_cons, List.foldl_nil]

/-- Invariant of the peak scan: a none result means the running best stayed
at the -1.0 sentinel and every valid slot value is at most -1; a some result
names a valid slot holding the running best, which dominates every valid
slot value in the window. -/
theorem find_peakAux_spec (values dirs : List (Option ℚ)) :
    ∀ n : ℕ,
      ((find_peakAux values dirs n).2 = none →
        (find_peakAux values dirs n).1 = -1 ∧
        ∀ i < n, ∀ w, values.getD i none = some w →
          (dirs.getD i none).isSome = true → w ≤ -1) ∧
      (∀ d i, (find_peakAux values dirs n).2 = some (d, i) →
        i < n ∧ values.getD i none = some (find_peakAux values dirs n).1 ∧
        dirs.getD i none = some d ∧
        ∀ j < n, ∀ w, values.getD j none = some w →
          (dirs.getD j none).isSome = true →
          w ≤ (find_peakAux values dirs n).1) := by
  intro n
  induction n with
  | zero =>
    constructor
    · intro _
      exact ⟨rfl, fun i hi => absurd hi (Nat.not_lt_zero i)⟩
    · intro d i h
      simp [find_peakAux] at h
  | succ n ih =>
    rw [find_peakAux_succ]
    cases hv : values.getD n none with
    | none =>
      dsimp only [safe_num]
      constructor
      · intro h
        obtain ⟨hbv, hall⟩ := ih.1 h
        refine ⟨hbv, ?_⟩
        intro i hi w hw hdi
        rcases Nat.lt_succ_iff_lt_or_eq.mp hi with hi | rfl
        · exact hall i hi w hw hdi
        · rw [hv] at hw; cases hw
      · intro d i h
        obtain ⟨hi, h1, h2, hall⟩ := ih.2 d i h
        refine ⟨Nat.lt_succ_of_lt hi, h1, h2, ?_⟩
        intro j hj w hw hdj
        rcases Nat.lt_succ_iff_lt_or_eq.mp hj with hj | rfl
        · exact hall j hj w hw hdj
        · rw [hv] at hw; cases hw
    | some v =>
      cases hd : dirs.getD n none with
      | none =>
        dsimp only [safe_num]
        constructor
        · intro h
          obtain ⟨hbv, hall⟩ := ih.1 h
          refine ⟨hbv, ?_⟩
          intro i hi w hw hdi
          rcases Nat.lt_succ_iff_lt_or_eq.mp hi with hi | rfl
          · exact hall i hi w hw hdi
          · rw [hd] at hdi; cases hdi
        · intro d i h
          obtain ⟨hi, h1, h2, hall⟩ := ih.2 d i h
          refine ⟨Nat.lt_succ_of_lt hi, h1, h2, ?_⟩
          intro j hj w hw hdj
          rcases Nat.lt_succ_iff_lt_or_eq.mp hj with hj | rfl
          · exact hall j hj w hw hdj
          · rw [hd] at hdj; cases hdj
      | some dq =>
        dsimp only [safe_num]
        by_cases hlt : (find_peakAux values dirs n).1 < v
        · rw [if_pos hlt]
          constructor
          · intro h
            exact Option.noConfusion h
          · intro d i h
            have hpair := Option.some_inj.mp h
            have hd' : dq = d := congrArg Prod.fst hpair
            have hi' : n = i := congrArg Prod.snd hpair
            subst hd'
            subst hi'
            refine ⟨Nat.lt_succ_self n, hv, hd, ?_⟩
            intro j hj w hw hdj
            rcases Nat.lt_succ_iff_lt_or_eq.mp hj with hj | rfl
            · cases h2 : (find_peakAux values dirs n).2 with
              | none =>
                obtain ⟨hbv, hall⟩ := ih.1 h2
                have := hall j hj w hw hdj
                have hm1 : (-1 : ℚ) ≤ v := hbv ▸ le_of_lt hlt
                exact le_trans this hm1
              | some p =>
                obtain ⟨_, _, _, hall⟩ := ih.2 p.1 p.2 (by rw [h2])
                exact le_trans (hall j hj w hw hdj) (le_of_lt hlt)
            · rw [hv] at hw
              obtain rfl := Option.some_inj.mp hw
              exact le_refl v
        · rw [if_neg hlt]
          constructor
          · intro h
            obtain ⟨hbv, hall⟩ := ih.1 h
            refine ⟨hbv, ?_⟩
            intro i hi w hw hdi
            rcases Nat.lt_succ_iff_lt_or_eq.mp hi with hi | rfl
            · exact hall i hi w hw hdi
            · rw [hv] at hw
              obtain rfl := Option.some_inj.mp hw
              exact hbv ▸ not_lt.mp hlt
          · intro d i h
            obtain ⟨hi, h1, h2, hall⟩ := ih.2 d i h
            refine ⟨Nat.lt_succ_of_lt hi, h1, h2, ?_⟩
            intro j hj w hw hdj
            rcases Nat.lt_succ_iff_lt_or_eq.mp hj with hj | rfl
            · exact hall j hj w hw hdj
            · rw [hv] at hw
              obtain rfl := Option.some_inj.mp hw
              exact not_lt.mp hlt

/-- The peak finder viewed through find_peak: a found peak names a valid
slot attaining the maximum, and emptiness characterizes windows without a
valid slot (for nonnegative speed values). -/
theorem find_peak_spec (values dirs : List (Option ℚ)) (times : List String) (n : ℕ) :
    (∀ v d t, find_peak values dirs times n = (some v, some d, t) →
      ∃ i, i < n ∧ values.getD i none = some v ∧ dirs.getD i none = some d ∧
        t = times.get? i ∧
        ∀ j < n, ∀ w, values.getD j none = some w →
          (dirs.getD j none).isSome = true → w ≤ v) ∧
    ((∀ q : ℚ, some q ∈ values → 0 ≤ q) →
      ((find_peak values dirs times n).1 = none ↔
        ∀ i < n, values.getD i none = none ∨ dirs.getD i none = none)) := by
  constructor
  · intro v d t h
    unfold find_peak at h
    cases haux : find_peakAux values dirs n with
    | mk bv o =>
      rw [haux] at h
      cases o with
      | none => cases h
      | some bd =>
        have h1 : some bv = some v := congrArg (fun p => p.1) h
        have h2 : some bd.1 = some d := congrArg (fun p => p.2.1) h
        have h3 : times.get? bd.2 = t := (congrArg (fun p => p.2.2) h :)
        obtain rfl := Option.some_inj.mp h1
        obtain rfl := Option.some_inj.mp h2
        obtain ⟨hi, hvv, hdd, hall⟩ :=
          (find_peakAux_spec values dirs n).2 bd.1 bd.2 (by rw [haux])
        rw [haux] at hvv hall
        exact ⟨bd.2, hi, hvv, hdd, h3.symm, hall⟩
  · intro hnn
    constructor
    · intro h i hi
      unfold find_peak at h
      cases haux : find_peakAux values dirs n with
      | mk bv o =>
        rw [haux] at h
        cases o with
        | some bd => cases h
        | none =>
          obtain ⟨hbv, hall⟩ := (find_peakAux_spec values dirs n).1 (by rw [haux])
          by_cases hvi : values.getD i none = none
          · exact Or.inl hvi
          · right
            obtain ⟨w, hw⟩ := Option.ne_none_iff_exists.mp hvi
            by_cases hdi : (dirs.getD i none).isSome = true
            · exfalso
              have hle := hall i hi w hw.symm hdi
              have hmem : some w ∈ values := by
                have := List.getD_eq_getElem?_getD values i none
                rw [this] at hw
                cases hg : values[i]? with
                | none => rw [hg] at hw; cases hw
                | some x =>
                  rw [hg] at hw
                  have : x = some w := by simpa using hw.symm
                  rw [← this]
                  exact List.getElem?_mem hg
              have := hnn w hmem
              linarith
            · exact Option.not_isSome_iff_eq_none.mp hdi
    · intro hall
      unfold find_peak
      cases haux : find_peakAux values dirs n with
      | mk bv o =>
        cases o with
        | none => rfl
        | some bd =>
          exfalso
          obtain ⟨hi, hvv, hdd, _⟩ :=
            (find_peakAux_spec values dirs n).2 bd.1 bd.2 (by rw [haux])
          rcases hall bd.2 hi with hcon | hcon
          · rw [hcon] at hvv; cases hvv
          · rw [hcon] at hdd; cases hdd

/-- C8 counterexample: a window whose only slot has a valid (but negative)
gust of -2 mph never beats the -1.0 sentinel, so the code produces no gust
sub-object at all (and would fall back to the snapshot if one were present),
although the claim promises the peak to be the maximum over valid slots. -/
theorem C8_counterexample :
    (windRiskOf [some (-2)] [] [some 0] [] none none none).1 = none ∧
    (windRiskOf [some (-2)] [] [some 0] [] none none none).2 = none ∧
    ([some ((-2 : ℚ))].getD 0 none).isSome = true ∧
    ([some ((0 : ℚ))].getD 0 none).isSome = true := by
  exact ⟨rfl, rfl, rfl, rfl⟩

set_option maxHeartbeats 1000000 in
/-- C8 (amended): for nonnegative speed values, each of the gust and
sustained streams takes its peak as the maximum speed over the first
min(12, len(gusts), len(dirs)) hourly slots, slots with a null speed or
direction being skipped entirely; when no valid slot exists the
current-conditions snapshot supplies speed and direction (with a null peak
time); the worry score is round2(speed × exposure_factor^1.5) at the
simultaneous direction; the severity bands are ≥30 SEVERE, ≥20 SIGNIFICANT,
≥12 NOTABLE, ≥5 NOTICEABLE, else LOW; and the reported peak time is the
chosen slot's timestamp — in particular gusts [10,15,40,20] with directions
in the full-exposure sector give worry 40, SEVERE, at the 40-mph slot's
timestamp. -/
theorem C8_wind_risk_model :
    ∀ (gusts speeds dirs : List (Option ℚ)) (times : List String)
      (curG curS curD : Option ℚ),
      (∀ q : ℚ, some q ∈ gusts → 0 ≤ q) →
      (∀ q : ℚ, some q ∈ speeds → 0 ≤ q) →
      (∀ v d t, find_peak gusts dirs times (min 12 (min gusts.length dirs.length)) =
          (some v, some d, t) →
        (∃ i, i < min 12 (min gusts.length dirs.length) ∧ gusts.getD i none = some v ∧
          dirs.getD i none = some d ∧ t = times.get? i ∧
          ∀ j < min 12 (min gusts.length dirs.length), ∀ w, gusts.getD j none = some w →
            (dirs.getD j none).isSome = true → w ≤ v) ∧
        (windRiskOf gusts speeds dirs times curG curS curD).1 = some (mkWindSub v d t)) ∧
      (∀ v d t, find_peak speeds dirs times (min 12 (min gusts.length dirs.length)) =
          (some v, some d, t) →
        (∃ i, i < min 12 (min gusts.length dirs.length) ∧ speeds.getD i none = some v ∧
          dirs.getD i none = some d ∧ t = times.get? i ∧
          ∀ j < min 12 (min gusts.length dirs.length), ∀ w, speeds.getD j none = some w →
            (dirs.getD j none).isSome = true → w ≤ v) ∧
        (windRiskOf gusts speeds dirs times curG curS curD).2 = some (mkWindSub v d t)) ∧
      ((find_peak gusts dirs times (min 12 (min gusts.length dirs.length))).1 = none ↔
        ∀ i < min 12 (min gusts.length dirs.length),
          gusts.getD i none = none ∨ dirs.getD i none = none) ∧
      ((find_peak speeds dirs times (min 12 (min gusts.length dirs.length))).1 = none ↔
        ∀ i < min 12 (min gusts.length dirs.length),
          speeds.getD i none = none ∨ dirs.getD i none = none) ∧
      ((find_peak gusts dirs times (min 12 (min gusts.length dirs.length))).1 = none →
        (windRiskOf gusts speeds dirs times curG curS curD).1 =
          (match curG, curD with
           | some v, some d => some (mkWindSub v d none)
           | _, _ => none)) ∧
      ((find_peak speeds dirs times (min 12 (min gusts.length dirs.length))).1 = none →
        (windRiskOf gusts speeds dirs times curG curS curD).2 =
          (match curS, curD with
           | some v, some d => some (mkWindSub v d none)
           | _, _ => none)) ∧
      (∀ (v d : ℚ) (t : Option String), (mkWindSub v d t).worry_score =
          worry_score v (get_exposure_factor ((pyInt d).emod 360)) ∧
        (mkWindSub v d t).level = worry_level ((mkWindSub v d t).worry_score) ∧
        (mkWindSub v d t).peak_mph = round1 v ∧ (mkWindSub v d t).peak_time = t) ∧
      (∀ s : ℝ, (worry_level s = "SEVERE" ↔ 30 ≤ s) ∧
        (worry_level s = "SIGNIFICANT" ↔ (20 ≤ s ∧ s < 30)) ∧
        (worry_level s = "NOTABLE" ↔ (12 ≤ s ∧ s < 20)) ∧
        (worry_level s = "NOTICEABLE" ↔ (5 ≤ s ∧ s < 12)) ∧
        (worry_level s = "LOW" ↔ s < 5)) ∧
      ((windRiskOf [some 10, some 15, some 40, some 20] []
          [some 10, some 10, some 10, some 10] ["t0", "t1", "t2", "t3"]
          none none none).1 = some (mkWindSub 40 10 (some "t2")) ∧
        (mkWindSub (40 : ℚ) 10 (some "t2")).worry_score = 40 ∧
        (mkWindSub (40 : ℚ) 10 (some "t2")).level = "SEVERE" ∧
        (mkWindSub (40 : ℚ) 10 (some "t2")).peak_mph = 40 ∧
        (mkWindSub (40 : ℚ) 10 (some "t2")).peak_time = some "t2") := by
  intro gusts speeds dirs times curG curS curD hg hs
  refine ⟨?_, ?_, ?_, ?_, ?_, ?_, ?_, ?_, ?_⟩
  · intro v d t hp
    refine ⟨(find_peak_spec gusts dirs times _).1 v d t hp, ?_⟩
    unfold windRiskOf
    dsimp only
    rw [hp]
  · intro v d t hp
    refine ⟨(find_peak_spec speeds dirs times _).1 v d t hp, ?_⟩
    unfold windRiskOf
    dsimp only
    rw [hp]
  · exact (find_peak_spec gusts dirs times _).2 hg
  · exact (find_peak_spec speeds dirs times _).2 hs
  · intro hn
    unfold windRiskOf
    dsimp only
    rw [hn]
    cases curG <;> cases curD <;> rfl
  · intro hn
    unfold windRiskOf
    dsimp only
    rw [hn]
    cases curS <;> cases curD <;> rfl
  · intro v d t
    exact ⟨rfl, rfl, rfl, rfl⟩
  · intro s
    unfold worry_level WORRY_SEVERE WORRY_SIGNIFICANT WORRY_NOTABLE WORRY_NOTICEABLE
    split_ifs with h1 h2 h3 h4
    · exact ⟨iff_of_true rfl h1,
        iff_of_false (by decide) (by rintro ⟨_, h⟩; linarith),
        iff_of_false (by decide) (by rintro ⟨_, h⟩; linarith),
        iff_of_false (by decide) (by rintro ⟨_, h⟩; linarith),
        iff_of_false (by decide) (by intro h; linarith)⟩
    · exact ⟨iff_of_false (by decide) h1,
        iff_of_true rfl ⟨h2, not_le.mp h1⟩,
        iff_of_false (by decide) (by rintro ⟨_, h⟩; linarith),
        iff_of_false (by decide) (by rintro ⟨_, h⟩; linarith),
        iff_of_false (by decide) (by intro h; linarith)⟩
    · exact ⟨iff_of_false (by decide) h1,
        iff_of_false (by decide) (by rintro ⟨h, _⟩; exact h2 h),
        iff_of_true rfl ⟨h3, not_le.mp h2⟩,
        iff_of_false (by decide) (by rintro ⟨_, h⟩; linarith),
        iff_of_false (by decide) (by intro h; linarith)⟩
    · exact ⟨iff_of_false (by decide) h1,
        iff_of_false (by decide) (by rintro ⟨h, _⟩; exact h2 h),
        iff_of_false (by decide) (by rintro ⟨h, _⟩; exact h3 h),
        iff_of_true rfl ⟨h4, not_le.mp h3⟩,
        iff_of_false (by decide) (by intro h; linarith)⟩
    · exact ⟨iff_of_false (by decide) h1,
        iff_of_false (by decide) (by rintro ⟨h, _⟩; exact h2 h),
        iff_of_false (by decide) (by rintro ⟨h, _⟩; exact h3 h),
        iff_of_false (by decide) (by rintro ⟨h, _⟩; exact h4 h),
        iff_of_true rfl (not_le.mp h4)⟩
  · have hef : get_exposure_factor ((pyInt 10).emod 360) = 1 := by decide
    have hws : (mkWindSub (40 : ℚ) 10 (some "t2")).worry_score = 40 := by
      show worry_score 40 (get_exposure_factor ((pyInt 10).emod 360)) = 40
      rw [hef]
      unfold worry_score
      rw [show ((1 : ℚ) : ℝ) = 1 by norm_num, Real.one_rpow,
        show ((40 : ℚ) : ℝ) * 1 = 40 by norm_num]
      unfold round2R pyRoundR
      norm_num
    have hlv : (mkWindSub (40 : ℚ) 10 (some "t2")).level = "SEVERE" := by
      show worry_level (worry_score 40 (get_exposure_factor ((pyInt 10).emod 360))) = "SEVERE"
      have h40 : worry_score 40 (get_exposure_factor ((pyInt 10).emod 360)) = 40 := hws
      rw [h40]
      unfold worry_level WORRY_SEVERE
      norm_num
    have hpm : (mkWindSub (40 : ℚ) 10 (some "t2")).peak_mph = 40 := by
      show round1 (40 : ℚ) = 40
      norm_num [round1, pyRound]
    exact ⟨rfl, hws, hlv, hpm, rfl⟩

/-- C8 witness: the nonnegativity hypotheses at the scenario input, and the
scenario conclusion obtained from the theorem. -/
theorem C8_wind_risk_model_witness :
    (∀ q : ℚ, some q ∈ [some (10 : ℚ), some 15, some 40, some 20] → 0 ≤ q) ∧
    ((windRiskOf [some 10, some 15, some 40, some 20] []
        [some 10, some 10, some 10, some 10] ["t0", "t1", "t2", "t3"]
        none none none).1 = some (mkWindSub 40 10 (some "t2")) ∧
      (mkWindSub (40 : ℚ) 10 (some "t2")).worry_score = 40 ∧
      (mkWindSub (40 : ℚ) 10 (some "t2")).level = "SEVERE" ∧
      (mkWindSub (40 : ℚ) 10 (some "t2")).peak_mph = 40 ∧
      (mkWindSub (40 : ℚ) 10 (some "t2")).peak_time = some "t2") := by
  have hnn : ∀ q : ℚ, some q ∈ [some (10 : ℚ), some 15, some 40, some 20] → 0 ≤ q := by
    intro q hq
    simp only [List.mem_cons, List.not_mem_nil, or_false, Option.some_inj] at hq
    rcases hq with rfl | rfl | rfl | rfl <;> norm_num
  obtain ⟨_, _, _, _, _, _, _, _, hsc⟩ := C8_wind_risk_model
    [some 10, some 15, some 40, some 20] []
    [some 10, some 10, some 10, some 10] ["t0", "t1", "t2", "t3"] none none none
    hnn (fun q hq => absurd hq (List.not_mem_nil (some q)))
  exact ⟨hnn, hsc⟩

/-
C2 — document shape.
-/

/-- When the current-conditions payload is absent the three conditional
sections are not written. -/
theorem process_data_none_proj (clock : Clock) (hourly_data : Option HourlyData)
    (daily_data : Option DailyData) (pws : Option PwsData) (tides : Option TidesOut)
    (kbos kbvy : Option AsosRet) (buoy : Option BuoyObs) (nws_forecast : List NwsPeriod)
    (alerts : Option (List Alert)) (source_meta : List (String × SourceStatus))
    (frost_log : Option FrostLog) :
    (process_data clock none hourly_data daily_data pws tides kbos kbvy buoy
      nws_forecast alerts source_meta frost_log).hyperlocal = none ∧
    (process_data clock none hourly_data daily_data pws tides kbos kbvy buoy
      nws_forecast alerts source_meta frost_log).derived = none ∧
    (process_data clock none hourly_data daily_data pws tides kbos kbvy buoy
      nws_forecast alerts source_meta frost_log).wind_risk = none :=
  ⟨rfl, rfl, rfl⟩

/-- The hyperlocal section of an assembled document with current data: it is
present exactly when both the model and the PWS temperature are present. -/
theorem process_data_hyperlocal (clock : Clock) (cd : CurrentData)
    (hourly_data : Option HourlyData) (daily_data : Option DailyData)
    (pws : Option PwsData) (tides : Option TidesOut) (kbos kbvy : Option AsosRet)
    (buoy : Option BuoyObs) (nws_forecast : List NwsPeriod) (alerts : Option (List Alert))
    (source_meta : List (String × SourceStatus)) (frost_log : Option FrostLog) :
    (process_data clock (some cd) hourly_data daily_data pws tides kbos kbvy buoy
      nws_forecast alerts source_meta frost_log).hyperlocal =
      (match cd.current.temperature_2m, (pws.getD pwsDocDefault).temperature with
       | some mt, some pt => some ⟨round2q (pt - mt), round2q (mt + round2q (pt - mt))⟩
       | _, _ => none) := rfl

/-- Every base key is a key of every assembled document. -/
theorem baseDocKeys_subset (d : WeatherDoc) :
    ∀ k ∈ baseDocKeys, k ∈ docKeys d := by
  intro k hk
  unfold docKeys
  exact List.mem_append_left _ (List.mem_append_left _ (List.mem_append_left _ hk))

/-- The hyperlocal key is present exactly when the section was written. -/
theorem docKeys_hyperlocal (d : WeatherDoc) :
    "hyperlocal" ∈ docKeys d ↔ d.hyperlocal.isSome = true := by
  by_cases h1 : d.hyperlocal.isSome <;> by_cases h2 : d.derived.isSome <;>
    by_cases h3 : d.wind_risk.isSome <;>
    simp [docKeys, baseDocKeys, h1, h2, h3]

/-- The derived key is present exactly when the section was written. -/
theorem docKeys_derived (d : WeatherDoc) :
    "derived" ∈ docKeys d ↔ d.derived.isSome = true := by
  by_cases h1 : d.hyperlocal.isSome <;> by_cases h2 : d.derived.isSome <;>
    by_cases h3 : d.wind_risk.isSome <;>
    simp [docKeys, baseDocKeys, h1, h2, h3]

/-- The wind_risk key is present exactly when the section was written. -/
theorem docKeys_wind_risk (d : WeatherDoc) :
    "wind_risk" ∈ docKeys d ↔ d.wind_risk.isSome = true := by
  by_cases h1 : d.hyperlocal.isSome <;> by_cases h2 : d.derived.isSome <;>
    by_cases h3 : d.wind_risk.isSome <;>
    simp [docKeys, baseDocKeys, h1, h2, h3]

/-- C2 counterexample: when the current-conditions source fails entirely
(the single-source total failure the claim covers), the assembled document
still lacks the hyperlocal, derived and wind_risk keys, while the claim
promises every top-level key with a placeholder. -/
theorem C2_counterexample :
    "hyperlocal" ∉ docKeys (process_data ⟨"2026-02-01T00:00:00Z", fun _ => none, 0, 12⟩
      none none none none none none none none [] none [] none) ∧
    "derived" ∉ docKeys (process_data ⟨"2026-02-01T00:00:00Z", fun _ => none, 0, 12⟩
      none none none none none none none none [] none [] none) ∧
    "wind_risk" ∉ docKeys (process_data ⟨"2026-02-01T00:00:00Z", fun _ => none, 0, 12⟩
      none none none none none none none none [] none [] none) ∧
    "schema_version" ∈ docKeys (process_data ⟨"2026-02-01T00:00:00Z", fun _ => none, 0, 12⟩
      none none none none none none none none [] none [] none) := by
  refine ⟨?_, ?_, ?_, ?_⟩ <;> decide

/-- C2 (amended): for every combination of upstream outcomes the assembled
document contains the sixteen always-present top-level keys (schema_version,
generated_at, location, sources, alerts, current, hourly, daily, tides,
tide_curve, kbos, kbvy, buoy_44013, frost_log, nws_forecast, pws), absent
upstream data being replaced by an empty value or placeholder; the
hyperlocal, derived and wind_risk keys however are conditional: all three
are absent whenever the current-conditions payload is missing, and
hyperlocal is present exactly when both the model and the PWS temperature
are available. -/
theorem C2_document_shape :
    ∀ (clock : Clock) (current_data : Option CurrentData) (hourly_data : Option HourlyData)
      (daily_data : Option DailyData) (pws : Option PwsData) (tides : Option TidesOut)
      (kbos kbvy : Option AsosRet) (buoy : Option BuoyObs) (nws_forecast : List NwsPeriod)
      (alerts : Option (List Alert)) (source_meta : List (String × SourceStatus))
      (frost_log : Option FrostLog),
      (∀ k ∈ baseDocKeys, k ∈ docKeys (process_data clock current_data hourly_data
        daily_data pws tides kbos kbvy buoy nws_forecast alerts source_meta frost_log)) ∧
      (current_data = none →
        docKeys (process_data clock current_data hourly_data daily_data pws tides kbos
          kbvy buoy nws_forecast alerts source_meta frost_log) = baseDocKeys) ∧
      ("hyperlocal" ∈ docKeys (process_data clock current_data hourly_data daily_data pws
          tides kbos kbvy buoy nws_forecast alerts source_meta frost_log) ↔
        (process_data clock current_data hourly_data daily_data pws tides kbos kbvy buoy
          nws_forecast alerts source_meta frost_log).hyperlocal.isSome = true) ∧
      ("derived" ∈ docKeys (process_data clock current_data hourly_data daily_data pws
          tides kbos kbvy buoy nws_forecast alerts source_meta frost_log) ↔
        (process_data clock current_data hourly_data daily_data pws tides kbos kbvy buoy
          nws_forecast alerts source_meta frost_log).derived.isSome = true) ∧
      ("wind_risk" ∈ docKeys (process_data clock current_data hourly_data daily_data pws
          tides kbos kbvy buoy nws_forecast alerts source_meta frost_log) ↔
        (process_data clock current_data hourly_data daily_data pws tides kbos kbvy buoy
          nws_forecast alerts source_meta frost_log).wind_risk.isSome = true) ∧
      (∀ cd, current_data = some cd →
        ((process_data clock current_data hourly_data daily_data pws tides kbos kbvy buoy
            nws_forecast alerts source_meta frost_log).hyperlocal.isSome = true ↔
          (cd.current.temperature_2m.isSome = true ∧
            (pws.getD pwsDocDefault).temperature.isSome = true))) := by
  intro clock current_data hourly_data daily_data pws tides kbos kbvy buoy nws_forecast
    alerts source_meta frost_log
  refine ⟨baseDocKeys_subset _, ?_, docKeys_hyperlocal _, docKeys_derived _,
    docKeys_wind_risk _, ?_⟩
  · intro hnone
    subst hnone
    obtain ⟨e1, e2, e3⟩ := process_data_none_proj clock hourly_data daily_data pws tides
      kbos kbvy buoy nws_forecast alerts source_meta frost_log
    simp [docKeys, e1, e2, e3]
  · intro cd hcd
    subst hcd
    rw [process_data_hyperlocal]
    cases hm : cd.current.temperature_2m with
    | none =>
      cases hp : (pws.getD pwsDocDefault).temperature with
      | none => simp
      | some pt => simp
    | some mt =>
      cases hp : (pws.getD pwsDocDefault).temperature with
      | none => simp
      | some pt => simp

/-- C2 witness: the base-key guarantee and the conditional-key
characterizations instantiated at the all-sources-failed input. -/
theorem C2_document_shape_witness :
    ((none : Option CurrentData) = none) ∧
    docKeys (process_data ⟨"2026-02-01T00:00:00Z", fun _ => none, 0, 12⟩
      none none none none none none none none [] none [] none) = baseDocKeys := by
  obtain ⟨_, h2, _⟩ := C2_document_shape ⟨"2026-02-01T00:00:00Z", fun _ => none, 0, 12⟩
    none none none none none none none none [] none [] none
  exact ⟨rfl, h2 rfl⟩

end Myweather
